import Mathlib

/-!
Shallow embedding of the PBA grading engine (`src/grading_logic.py`).

Modelling conventions:
* Python `float` is modelled by `PyF`: an exact rational, positive or
  negative infinity, or NaN.  IEEE rounding of finite values is modelled by
  exact rational arithmetic; this is the only simplification.  Python's
  `float(s)` accepts an optional sign, a decimal mantissa, an optional
  exponent and the words inf/infinity/nan; digit-group underscores and
  non-ASCII digits are outside the model.
* Python strings are modelled as `String`/`List Char`; `str.strip`,
  `str.lower`, `str.replace`, `re.sub` and the regular expressions of
  `grading_logic.py` are transcribed as executable functions on `List Char`.
* A Python function that can raise an uncaught exception is modelled with
  an `Option` result, `none` meaning the call raises.  The only such site
  is `format_duration`, whose `int(...)` conversion raises on NaN or an
  infinity (for example `int(float("inf") // 60)` raises `ValueError`
  because `float` floor division by way of `fmod` yields NaN there).
* `grade_submission` is modelled with `api_key = None`: the optional LLM
  normalisation pre-pass is skipped, exactly as in the Python code when no
  key is configured.
-/

namespace PBA

/-! ## Character and list utilities (Python string primitives) -/

/-- The whitespace characters of Python's `str.strip` / `\s` (ASCII range). -/
def isWs (c : Char) : Bool :=
  c = ' ' || c = '\t' || c = '\n' || c = '\r' || c = '\x0b' || c = '\x0c'

/-- Python `str.strip()` on a character list. -/
def trimWs (l : List Char) : List Char :=
  ((l.dropWhile isWs).reverse.dropWhile isWs).reverse

/-- Python `str.strip(':')`-style strip of one specific character. -/
def trimChar (x : Char) (l : List Char) : List Char :=
  ((l.dropWhile (· = x)).reverse.dropWhile (· = x)).reverse

/-- Python `str.lower()` (ASCII; the graded answers are ASCII text). -/
def lowerL (l : List Char) : List Char :=
  l.map Char.toLower

/-- Scan of Python's `b in a` substring test: does `pat` occur in the list? -/
def isSubL (pat : List Char) : List Char → Bool
  | [] => pat.isEmpty
  | c :: cs => pat.isPrefixOf (c :: cs) || isSubL pat cs

/-- Python `b in a` substring test. -/
def containsSub (l pat : List Char) : Bool :=
  isSubL pat l

/-- Worker for `replaceL`: structural recursion on a fuel that bounds the
list length (every step consumes at least one character, so fuel equal to
the length is never exhausted). -/
def replaceGo (pat rep : List Char) : ℕ → List Char → List Char
  | 0, l => l
  | _ + 1, [] => []
  | fuel + 1, c :: cs =>
    if pat.isPrefixOf (c :: cs) then
      rep ++ replaceGo pat rep fuel (cs.drop (pat.length - 1))
    else
      c :: replaceGo pat rep fuel cs

/-- Python `a.replace(pat, rep)`: replace every non-overlapping occurrence,
left to right.  All patterns used in the source are nonempty. -/
def replaceL (pat rep l : List Char) : List Char :=
  replaceGo pat rep l.length l

/-- Worker for `collapseRuns`, fuelled like `replaceGo`. -/
def collapseGo (p : Char → Bool) (r : Char) : ℕ → List Char → List Char
  | 0, l => l
  | _ + 1, [] => []
  | fuel + 1, c :: cs =>
    if p c then r :: collapseGo p r fuel (cs.dropWhile p)
    else c :: collapseGo p r fuel cs

/-- Python `re.sub(r'X+', 'x', s)` for a character class: collapse every
maximal run of characters satisfying `p` to the single character `r`. -/
def collapseRuns (p : Char → Bool) (r : Char) (l : List Char) : List Char :=
  collapseGo p r l.length l

/-- Python `s.split(sep)` for a one-character separator (keeps empty parts). -/
def splitOnC (sep : Char) : List Char → List (List Char)
  | [] => [[]]
  | c :: cs =>
    if c = sep then [] :: splitOnC sep cs
    else
      match splitOnC sep cs with
      | [] => [[c]]
      | h :: t => (c :: h) :: t

/-- Python `s.split()` (split on whitespace runs, dropping empty parts). -/
def wsSplit (l : List Char) : List (List Char) :=
  ((splitOnC ' ' (collapseRuns isWs ' ' l)).map trimWs).filter (· ≠ [])

/-- Numeric value of a decimal digit string (fold, so leading zeros are fine). -/
def digitsVal (l : List Char) : ℕ :=
  l.foldl (fun a c => 10 * a + (c.toNat - 48)) 0

/-- Worker for `natToChars`: fuel-bounded division chain (fuel `n + 1` is
always enough since `n / 10 < n` for `n ≥ 10`). -/
def natToCharsGo : ℕ → ℕ → List Char
  | 0, _ => []
  | fuel + 1, n =>
    if n < 10 then [Char.ofNat (48 + n)]
    else natToCharsGo fuel (n / 10) ++ [Char.ofNat (48 + n % 10)]

/-- Decimal digits of a natural number, most significant first
(the rendering of Python's `f"{n}"` for `n : ℕ`). -/
def natToChars (n : ℕ) : List Char :=
  natToCharsGo (n + 1) n

/-- Rendering of Python's `f"{z}"` for an integer. -/
def intToChars (z : ℤ) : List Char :=
  if z < 0 then '-' :: natToChars z.natAbs else natToChars z.toNat

/-- Rendering of Python's `f"{n:02d}"` for `0 ≤ n`. -/
def pad2 (n : ℕ) : List Char :=
  if n < 10 then '0' :: natToChars n else natToChars n

/-! ## Unnormalised rationals

Mathlib's `ℚ` keeps numerator and denominator coprime, so every arithmetic
operation runs `Nat.gcd` — which the evaluator cannot reduce, making
concrete runs of the embedded program impossible to check by `decide`.
`Q0` is the same field of values without the normalisation: a plain
numerator/denominator pair with integer arithmetic only.  Every value the
embedding constructs has a positive denominator (division transfers the
divisor's sign to the numerator), and `Q0.toQ` interprets a pair as the
rational it denotes; the bridge lemmas below let claim statements speak
about `ℚ`. -/

structure Q0 where
  num : ℤ
  den : ℤ
deriving DecidableEq

namespace Q0

/-- Embed an integer. -/
def ofInt (n : ℤ) : Q0 := ⟨n, 1⟩

/-- Embed a true rational (positive denominator by `Rat`'s invariant). -/
def ofQ (q : ℚ) : Q0 := ⟨q.num, (q.den : ℤ)⟩

/-- The rational denoted by a pair. -/
def toQ (a : Q0) : ℚ := (a.num : ℚ) / (a.den : ℚ)

/-- `a ≤ b` by cross multiplication (sound for positive denominators). -/
def qle (a b : Q0) : Bool := a.num * b.den ≤ b.num * a.den

/-- `a < b` by cross multiplication. -/
def qlt (a b : Q0) : Bool := a.num * b.den < b.num * a.den

/-- Value equality by cross multiplication. -/
def qeq (a b : Q0) : Bool := a.num * b.den = b.num * a.den

/-- Addition. -/
def qadd (a b : Q0) : Q0 := ⟨a.num * b.den + b.num * a.den, a.den * b.den⟩

/-- Negation. -/
def qneg (a : Q0) : Q0 := ⟨-a.num, a.den⟩

/-- Subtraction. -/
def qsub (a b : Q0) : Q0 := qadd a (qneg b)

/-- Multiplication. -/
def qmul (a b : Q0) : Q0 := ⟨a.num * b.num, a.den * b.den⟩

/-- Division; the divisor's sign moves into the numerator so a positive
denominator stays positive (for a divisor with value zero the result is
garbage, but every such division is guarded in the source). -/
def qdiv (a b : Q0) : Q0 :=
  if b.num < 0 then ⟨-(a.num * b.den), a.den * -b.num⟩
  else ⟨a.num * b.den, a.den * b.num⟩

/-- Absolute value (positive denominator). -/
def qabs (a : Q0) : Q0 := ⟨|a.num|, a.den⟩

/-- Floor (positive denominator): Python float `//` is floor-based. -/
def qfloor (a : Q0) : ℤ := Int.fdiv a.num a.den

/-- Truncation toward zero (positive denominator): Python `int(x)`. -/
def qtrunc (a : Q0) : ℤ := Int.tdiv a.num a.den

/-- Sign tests, sound for positive denominators. -/
def isZero (a : Q0) : Bool := a.num = 0

/-- Strict positivity, sound for positive denominators. -/
def isPos (a : Q0) : Bool := 0 < a.num

end Q0

/-! ## The Python float model -/

/-- A Python `float`: an exact rational (rounding out of model), an
infinity, or NaN. -/
inductive PyF where
  | fin : Q0 → PyF
  | inf : PyF
  | ninf : PyF
  | nan : PyF
deriving DecidableEq

/-- Shorthand for a finite integer-valued float. -/
def fI (n : ℤ) : PyF := .fin (Q0.ofInt n)

/-- Shorthand for a finite float with an explicit fraction `n / d`. -/
def fQ (n d : ℤ) : PyF := .fin ⟨n, d⟩

namespace PyF

/-- Python `<` on floats (NaN compares false with everything). -/
def plt : PyF → PyF → Bool
  | nan, _ => false
  | _, nan => false
  | fin a, fin b => Q0.qlt a b
  | fin _, inf => true
  | fin _, ninf => false
  | inf, _ => false
  | ninf, inf => true
  | ninf, fin _ => true
  | ninf, ninf => false

/-- Python `<=` on floats. -/
def ple : PyF → PyF → Bool
  | nan, _ => false
  | _, nan => false
  | fin a, fin b => Q0.qle a b
  | fin _, inf => true
  | fin _, ninf => false
  | inf, inf => true
  | inf, _ => false
  | ninf, _ => true

/-- Python `==` on floats (NaN equals nothing, itself included). -/
def peq : PyF → PyF → Bool
  | nan, _ => false
  | _, nan => false
  | fin a, fin b => Q0.qeq a b
  | inf, inf => true
  | ninf, ninf => true
  | _, _ => false

/-- Python float addition. -/
def padd : PyF → PyF → PyF
  | nan, _ => nan
  | _, nan => nan
  | inf, ninf => nan
  | ninf, inf => nan
  | inf, _ => inf
  | _, inf => inf
  | ninf, _ => ninf
  | _, ninf => ninf
  | fin a, fin b => fin (Q0.qadd a b)

/-- Python float negation. -/
def pneg : PyF → PyF
  | nan => nan
  | inf => ninf
  | ninf => inf
  | fin a => fin (Q0.qneg a)

/-- Python float subtraction. -/
def psub (a b : PyF) : PyF := padd a (pneg b)

/-- Python float multiplication. -/
def pmul : PyF → PyF → PyF
  | nan, _ => nan
  | _, nan => nan
  | inf, inf => inf
  | inf, ninf => ninf
  | ninf, inf => ninf
  | ninf, ninf => inf
  | inf, fin b => if Q0.isZero b then nan else if Q0.isPos b then inf else ninf
  | fin a, inf => if Q0.isZero a then nan else if Q0.isPos a then inf else ninf
  | ninf, fin b => if Q0.isZero b then nan else if Q0.isPos b then ninf else inf
  | fin a, ninf => if Q0.isZero a then nan else if Q0.isPos a then ninf else inf
  | fin a, fin b => fin (Q0.qmul a b)

/-- Python float division.  Division by the finite zero would raise
`ZeroDivisionError`; every division in the source is guarded by an
`old_value == 0` test, so that case is unreachable (mapped to `nan`). -/
def pdiv : PyF → PyF → PyF
  | nan, _ => nan
  | _, nan => nan
  | inf, inf => nan
  | inf, ninf => nan
  | ninf, inf => nan
  | ninf, ninf => nan
  | inf, fin b => if Q0.isZero b then nan else if Q0.isPos b then inf else ninf
  | ninf, fin b => if Q0.isZero b then nan else if Q0.isPos b then ninf else inf
  | fin _, inf => fin (Q0.ofInt 0)
  | fin _, ninf => fin (Q0.ofInt 0)
  | fin a, fin b => if Q0.isZero b then nan else fin (Q0.qdiv a b)

/-- Python float `abs`. -/
def pabs : PyF → PyF
  | nan => nan
  | inf => inf
  | ninf => inf
  | fin a => fin (Q0.qabs a)

/-- Python truthiness of an `Optional[float]`: `None` and `0.0` are falsy;
NaN and the infinities are truthy. -/
def truthy : Option PyF → Bool
  | none => false
  | some (fin a) => !Q0.isZero a
  | some _ => true

end PyF

/-! ## Python `float(s)` -/

/-- Exponent tail of a float literal: optional sign then one or more digits;
`mant * 10 ^ e`. -/
def pyFloatExp (mant : Q0) (l : List Char) : Option Q0 :=
  let (sgnNeg, t) :=
    match l with
    | '+' :: r => (false, r)
    | '-' :: r => (true, r)
    | _ => (false, l)
  let ds := t.takeWhile Char.isDigit
  if ds = [] ∨ t.dropWhile Char.isDigit ≠ [] then none
  else if sgnNeg then some ⟨mant.num, mant.den * 10 ^ digitsVal ds⟩
  else some ⟨mant.num * 10 ^ digitsVal ds, mant.den⟩

/-- Unsigned part of Python `float(s)`: decimal mantissa with optional
fraction and exponent, or the words inf/infinity/nan (the call sites have
already lower-cased the text). -/
def pyFloatCore (l : List Char) : Option PyF :=
  if l = "inf".data ∨ l = "infinity".data then some .inf
  else if l = "nan".data then some .nan
  else
    let ip := l.takeWhile Char.isDigit
    let r1 := l.dropWhile Char.isDigit
    let (fp, r2) :=
      match r1 with
      | '.' :: r => (r.takeWhile Char.isDigit, r.dropWhile Char.isDigit)
      | _ => ([], r1)
    if ip = [] ∧ fp = [] then none
    else
      let mant : Q0 := ⟨(digitsVal ip : ℤ) * 10 ^ fp.length + (digitsVal fp : ℤ), 10 ^ fp.length⟩
      match r2 with
      | [] => some (.fin mant)
      | 'e' :: r => (pyFloatExp mant r).map .fin
      | _ => none

/-- Python `float(s)`: strip whitespace, optional sign, then the unsigned
part.  On failure (`ValueError`) returns `none`. -/
def pyFloat? (l : List Char) : Option PyF :=
  let t := trimWs l
  match t with
  | '+' :: r => pyFloatCore r
  | '-' :: r => (pyFloatCore r).map .pneg
  | _ => pyFloatCore t

/-! ## `parse_duration` (grading_logic.py lines 115-212)

Each of the five anchored regular expressions of the source is transcribed
as a matcher on `List Char`; the final fall-through normalisation
(word/punctuation replacement, colon collapsing, splitting) follows the
source statement by statement. -/

/-- Consume a literal, returning the remainder on success. -/
def litP (pat l : List Char) : Option (List Char) :=
  if pat.isPrefixOf l then some (l.drop pat.length) else none

/-- `re.match(r'^(\d+)\s*minutes?\s*(\d+)\s*secondes?$', s)` together with
the English variant ending in `seconds?` (the two alternatives differ only
in the final unit word, so their union is matched at once). -/
def fullTimeMatch (l : List Char) : Option PyF :=
  let ds1 := l.takeWhile Char.isDigit
  let r := l.dropWhile Char.isDigit
  if ds1 = [] then none
  else
    match litP "minute".data (r.dropWhile isWs) with
    | none => none
    | some r2 =>
      let r3 := match r2 with
        | 's' :: t => t
        | t => t
      let r3w := r3.dropWhile isWs
      let ds2 := r3w.takeWhile Char.isDigit
      let r4 := r3w.dropWhile Char.isDigit
      if ds2 = [] then none
      else
        let r5 := r4.dropWhile isWs
        if r5 = "secondes".data ∨ r5 = "seconde".data ∨
            r5 = "seconds".data ∨ r5 = "second".data then
          some (.fin ⟨60 * (digitsVal ds1 : ℤ) + (digitsVal ds2 : ℤ), 1⟩)
        else none

/-- `re.match(r'^(\d+),(\d{1,2})$', s)`: French comma time notation. -/
def commaTimeMatch (l : List Char) : Option PyF :=
  let ds1 := l.takeWhile Char.isDigit
  let r := l.dropWhile Char.isDigit
  if ds1 = [] then none
  else
    match r with
    | ',' :: r2 =>
      let ds2 := r2.takeWhile Char.isDigit
      if r2.dropWhile Char.isDigit = [] ∧ (ds2.length = 1 ∨ ds2.length = 2) then
        some (.fin ⟨60 * (digitsVal ds1 : ℤ) + (digitsVal ds2 : ℤ), 1⟩)
      else none
    | _ => none

/-- `re.match(r'^(\d+)\s*(?:mn|m)\s*(\d+)$', s)`: French shorthand, with the
regex's ordered `mn`-before-`m` alternation. -/
def shorthandMatch (l : List Char) : Option PyF :=
  let ds1 := l.takeWhile Char.isDigit
  let r := l.dropWhile Char.isDigit
  if ds1 = [] then none
  else
    let finish : List Char → Option PyF := fun t =>
      let t1 := t.dropWhile isWs
      let ds2 := t1.takeWhile Char.isDigit
      if ds2 ≠ [] ∧ t1.dropWhile Char.isDigit = [] then
        some (.fin ⟨60 * (digitsVal ds1 : ℤ) + (digitsVal ds2 : ℤ), 1⟩)
      else none
    match r.dropWhile isWs with
    | 'm' :: 'n' :: t =>
      match finish t with
      | some v => some v
      | none => finish ('n' :: t)
    | 'm' :: t => finish t
    | _ => none

/-- The capture `(\d+(?:[.,]\d+)?)` of the `mins_only`/`secs_only` regexes:
a digit run with optional decimal part, as the rational that Python's
`float` produces after the source replaces `,` by `.`.  Returns the value
and the unconsumed remainder. -/
def readDec (l : List Char) : Option (Q0 × List Char) :=
  let ip := l.takeWhile Char.isDigit
  let r := l.dropWhile Char.isDigit
  if ip = [] then none
  else
    match r with
    | '.' :: r2 =>
      let fp := r2.takeWhile Char.isDigit
      if fp = [] then some (⟨(digitsVal ip : ℤ), 1⟩, r)
      else
        some (⟨(digitsVal ip : ℤ) * 10 ^ fp.length + (digitsVal fp : ℤ), 10 ^ fp.length⟩,
          r2.dropWhile Char.isDigit)
    | ',' :: r2 =>
      let fp := r2.takeWhile Char.isDigit
      if fp = [] then some (⟨(digitsVal ip : ℤ), 1⟩, r)
      else
        some (⟨(digitsVal ip : ℤ) * 10 ^ fp.length + (digitsVal fp : ℤ), 10 ^ fp.length⟩,
          r2.dropWhile Char.isDigit)
    | _ => some (⟨(digitsVal ip : ℤ), 1⟩, r)

/-- `re.match(r'^(\d+(?:[.,]\d+)?)\s*(?:minutes?|mins?|mn|m)$', s)`. -/
def minsOnlyMatch (l : List Char) : Option PyF :=
  match readDec l with
  | none => none
  | some (v, r) =>
    let r1 := r.dropWhile isWs
    if r1 = "minutes".data ∨ r1 = "minute".data ∨ r1 = "mins".data ∨
        r1 = "min".data ∨ r1 = "mn".data ∨ r1 = "m".data then
      some (.fin (Q0.qmul v (Q0.ofInt 60)))
    else none

/-- `re.match(r'^(\d+(?:[.,]\d+)?)\s*(?:secondes?|seconds?|secs?|s)$', s)`. -/
def secsOnlyMatch (l : List Char) : Option PyF :=
  match readDec l with
  | none => none
  | some (v, r) =>
    let r1 := r.dropWhile isWs
    if r1 = "secondes".data ∨ r1 = "seconde".data ∨ r1 = "seconds".data ∨
        r1 = "second".data ∨ r1 = "secs".data ∨ r1 = "sec".data ∨
        r1 = "s".data then
      some (.fin v)
    else none

/-- The word/punctuation normalisation of lines 179-195 of the source
(applied when no anchored pattern matched), in source order. -/
def normalizeTail (l : List Char) : List Char :=
  let t := replaceL [','] ['.'] l
  let t := replaceL "seconds".data [] t
  let t := replaceL "second".data [] t
  let t := replaceL "secondes".data [] t
  let t := replaceL "seconde".data [] t
  let t := replaceL "minutes".data [':'] t
  let t := replaceL "minute".data [':'] t
  let t := replaceL "mins".data [':'] t
  let t := replaceL "min".data [':'] t
  let t := replaceL "sec".data [] t
  let t := replaceL "secs".data [] t
  let t := replaceL "and".data [] t
  let t := replaceL "et".data [] t
  let t := trimWs t
  let t := replaceL ['\''] [':'] t
  let t := replaceL ['\"'] [] t
  let t := trimWs (collapseRuns isWs ' ' t)
  trimChar ':' (collapseRuns (· = ':') ':' t)

/-- The `try` block of lines 197-212: split on the collapsed colon, or
read a bare number; `ValueError`/`IndexError` give `None`. -/
def parseColonOrNumber (t : List Char) : Option PyF :=
  if ':' ∈ t then
    match (splitOnC ':' t).map trimWs |>.filter (· ≠ []) with
    | [p1, p2] =>
      match pyFloat? p1, pyFloat? p2 with
      | some m, some s => some (PyF.padd (PyF.pmul m (fI 60)) s)
      | _, _ => none
    | [p] => pyFloat? p
    | _ => none
  else if ' ' ∈ t then
    match wsSplit t with
    | [] => none
    | tk :: _ => pyFloat? tk
  else pyFloat? t

/-- `parse_duration` on the characters of the answer.  `None` (the Python
return value for both the DIAB/Door special case and an unparseable
answer) is modelled by `none`. -/
def parseDurCore (l0 : List Char) : Option PyF :=
  let l := lowerL (trimWs l0)
  if containsSub l "door".data ∨ containsSub l "diab".data then none
  else
    match fullTimeMatch l with
    | some v => some v
    | none =>
      match commaTimeMatch l with
      | some v => some v
      | none =>
        match shorthandMatch l with
        | some v => some v
        | none =>
          match minsOnlyMatch l with
          | some v => some v
          | none =>
            match secsOnlyMatch l with
            | some v => some v
            | none => parseColonOrNumber (normalizeTail l)

/-- `parse_duration` (grading_logic.py lines 115-212). -/
def parse_duration (s : String) : Option PyF :=
  parseDurCore s.data

/-! ## `format_duration`, percentage and guideline tables (lines 215-258) -/

/-- The body of `format_duration` for a finite value: `int` truncates
toward zero, float `//`/`%` are floor-based. -/
def fmtFin (q : Q0) : List Char :=
  if Q0.qlt q (Q0.ofInt 60) then intToChars (Q0.qtrunc q) ++ " seconds".data
  else
    let mins : ℤ := Q0.qfloor (Q0.qdiv q (Q0.ofInt 60))
    let secs : ℤ := Q0.qtrunc (Q0.qsub q (Q0.qmul (Q0.ofInt 60) (Q0.ofInt mins)))
    if secs = 0 then
      intToChars mins ++ (if mins ≠ 1 then " minutes".data else " minute".data)
    else
      intToChars mins ++ ':' :: pad2 secs.toNat

/-- `format_duration` (lines 215-225).  On NaN or an infinity the `int(...)`
conversion raises (`none`); on a finite value it returns the rendered
string. -/
def format_duration : PyF → Option String
  | .fin q => some (String.mk (fmtFin q))
  | _ => none

/-- `calculate_percentage_increase` (lines 228-232). -/
def calculate_percentage_increase (old_value new_value : PyF) : PyF :=
  if PyF.peq old_value (fI 0) then fI 0
  else PyF.pmul (PyF.pdiv (PyF.psub new_value old_value) old_value) (fI 100)

/-- `get_guideline_range` (lines 235-243). -/
def get_guideline_range (duration_seconds : PyF) : PyF × PyF :=
  if PyF.plt duration_seconds (fI 120) then (fI 10, fI 20)
  else (fI 5, fI 10)

/-- `get_warmup_range` (lines 246-258). -/
def get_warmup_range (duration_seconds : PyF) : ℤ × ℤ :=
  if PyF.plt duration_seconds (fI 60) then (7, 9)
  else if PyF.plt duration_seconds (fI 300) then (4, 7)
  else if PyF.plt duration_seconds (fI 900) then (1, 5)
  else (1, 2)

/-- Round half to even (the display rounding of `f"{x:.1f}"`; on the exact
rationals of this model the tie rule is the only visible difference from
IEEE formatting).  Sound for a positive denominator. -/
def roundHE (q : Q0) : ℤ :=
  let f := Q0.qfloor q
  let r2 := 2 * (q.num - f * q.den)
  if r2 < q.den then f
  else if q.den < r2 then f + 1
  else if f % 2 = 0 then f else f + 1

/-- `f"{x:.1f}"`: one decimal place. -/
def fmt1 : PyF → String
  | .inf => "inf"
  | .ninf => "-inf"
  | .nan => "nan"
  | .fin q =>
    let n := roundHE (Q0.qmul q (Q0.ofInt 10))
    (if n < 0 then "-" else "") ++ String.mk (natToChars (n.natAbs / 10)) ++
      "." ++ String.mk (natToChars (n.natAbs % 10))

/-! ## `GradeResult` and shared grader helpers -/

/-- `GradeResult` (grading_logic.py lines 106-112). -/
structure GradeResult where
  is_correct : Bool
  feedback : String
  calculation : Option String
  confidence : String
deriving DecidableEq

/-- `GradeResult(is_correct=c, feedback=fb)` with the dataclass defaults. -/
def GR (c : Bool) (fb : String) : GradeResult :=
  ⟨c, fb, none, "high"⟩

/-- `GradeResult` with an explicit confidence. -/
def GRconf (c : Bool) (fb : String) (conf : String) : GradeResult :=
  ⟨c, fb, none, conf⟩

/-- `GradeResult` with a calculation string. -/
def GRcalc (c : Bool) (fb : String) (cs : String) : GradeResult :=
  ⟨c, fb, some cs, "high"⟩

/-- `GradeResult` with calculation and confidence. -/
def GRfull (c : Bool) (fb : String) (cs : String) (conf : String) : GradeResult :=
  ⟨c, fb, some cs, conf⟩

/-- Python `answer.lower().strip()`. -/
def pyLowerStrip (s : String) : List Char :=
  trimWs (lowerL s.data)

/-- Python `x and f(x)` for `x : Optional[float]` (short-circuit: `None` and
`0.0` are falsy, so `f` is only consulted on a truthy value). -/
def optCmp (x : Option PyF) (f : PyF → Bool) : Bool :=
  PyF.truthy x && (match x with | some v => f v | none => false)

/-- First match of `re.findall(r'\d+', s)`, as a number. -/
def findFirstNat : List Char → Option ℕ
  | [] => none
  | c :: cs =>
    if c.isDigit then some (digitsVal ((c :: cs).takeWhile Char.isDigit))
    else findFirstNat cs

/-- First match of `re.findall(r'(\d+(?:\.\d+)?)\s*%?', s)` (dot decimals
only, as in the regex), as a rational. -/
def findFirstDec : List Char → Option Q0
  | [] => none
  | c :: cs =>
    if c.isDigit then
      let ip := (c :: cs).takeWhile Char.isDigit
      match (c :: cs).dropWhile Char.isDigit with
      | '.' :: r2 =>
        let fp := r2.takeWhile Char.isDigit
        if fp = [] then some ⟨(digitsVal ip : ℤ), 1⟩
        else some ⟨(digitsVal ip : ℤ) * 10 ^ fp.length + (digitsVal fp : ℤ), 10 ^ fp.length⟩
      | _ => some ⟨(digitsVal ip : ℤ), 1⟩
    else findFirstDec cs

/-- First match of `re.findall(r'step\s*(\d+)', s)`, as a number. -/
def findStepNum : List Char → Option ℕ
  | [] => none
  | c :: cs =>
    if "step".data.isPrefixOf (c :: cs) then
      let r := ((c :: cs).drop 4).dropWhile isWs
      let ds := r.takeWhile Char.isDigit
      if ds ≠ [] then some (digitsVal ds) else findStepNum cs
    else findStepNum cs

/-- Rendering of Python `f"{int(p)}"` for the finite guideline constants
(`int()` on NaN or an infinity would raise, but every call site passes the
finite values of `get_guideline_range`). -/
def fmtInt : PyF → String
  | .fin q => String.mk (intToChars (Q0.qtrunc q))
  | _ => ""

/-! ## Maisie graders (grading_logic.py lines 265-467) -/

/-- `grade_maisie_q1` (lines 265-327). -/
def grade_maisie_q1 (answer : String) : GradeResult :=
  match parse_duration answer with
  | none =>
    GR false "Maisie did show signs of anxiety early on, so well done! It is okay to err on the side of caution, especially when just starting out with a dog. However, for Plan 1 Maisie could have started with a target duration exercise rather than Door is a Bore."
  | some duration =>
    let confidence :=
      if PyF.ple (fI 4) duration && PyF.ple duration (fI 6) then "review"
      else if PyF.ple (fI 9) duration && PyF.ple duration (fI 11) then "review"
      else if PyF.ple (fI 19) duration && PyF.ple duration (fI 22) then "review"
      else if PyF.ple (fI 41) duration && PyF.ple duration (fI 45) then "review"
      else "high"
    if PyF.ple duration (fI 4) then
      GRconf false "Maisie did show signs of anxiety early on, so well done! It is okay to err on the side of caution, especially when just starting out with a dog. However, for anything under 5 seconds we'd start a dog on DIAB and in Maisie's case she does not need to start on DIAB. Maisie was doing well for the first 19 seconds of the video." confidence
    else if PyF.ple duration (fI 9) then
      GRconf false "Maisie was doing well for the first 19 seconds of the video. We start to see her struggle with those repeated yawns and lip licks starting at 20 seconds. It would have been okay to start her around 15 seconds to shave a little time off from those first signs of anxiety. However, it's always okay to err on the side of caution, especially when just starting out with a client." confidence
    else if PyF.ple duration (fI 16) then
      GRconf true "Excellent choice for Maisie's Plan 1. Maisie starts showing anxiety with repeated yawning and lip licking starting at 20 seconds. More signs of anxiety follow throughout the absence. You identified those early signs and set a safe target duration well before they appeared." confidence
    else if PyF.ple duration (fI 19) then
      GRconf true "Nice job catching that Maisie starts showing anxiety with repeated yawning and lip licking starting at 20 seconds. More signs of anxiety follow throughout the absence. Since this is your first time seeing Maisie you could even start closer to 15 seconds just to shave a little time off from where we saw those first signs of anxiety." confidence
    else if PyF.peq duration (fI 20) then
      GRconf true "Nice job catching that when Maisie started yawning and lip licking around 20 seconds she was beginning to go over threshold. After that more signs of anxiety followed through the absence. Since her first yawn is 20 seconds into the absence we'd want to start her first exercise slightly before those first signs of anxiety. Starting closer to 15 seconds would be a better choice for Maisie." confidence
    else if PyF.ple duration (fI 43) then
      GRconf false "This target duration is slightly pushy. Maisie does start showing signs of anxiety pretty early on; repeated lip licks and yawns starting at 20 seconds, after which she gets up with a gruff, stretches, and looks at the door stiffly. Then she scratches and stretches. Some of these things could be okay on their own, but we are seeing an escalation of behaviors here. For Maisie, you'd want to set the target duration for Plan 1 to slightly before those very first signs of anxiety." confidence
    else
      GRconf false "Take another look at the video for Maisie. She starts to show signs of anxiety pretty early on. Watch closely. For Maisie, you'd want to set the target duration for Plan 1 to something you're pretty certain she'll be comfortable doing - a duration that's shorter than where we see those first signs of anxiety. We are looking for less than 20 seconds." confidence

/-- `grade_maisie_q2` (lines 330-389). -/
def grade_maisie_q2 (answer q1_answer : String) : Option GradeResult :=
  let new_duration := parse_duration answer
  let old_duration := parse_duration q1_answer
  match old_duration, new_duration with
  | none, _ => some (GR false "Please provide a target duration for this plan.")
  | _, none => some (GR false "Please provide a target duration for this plan.")
  | some od, some nd =>
    if PyF.ple nd od then
      match format_duration od, format_duration nd with
      | some fo, some fn =>
        some (GRcalc false "This is not correct. Maisie did not need to drop here. Since she aced Plan 1, you should increase the target duration." ("Your Plan 1: " ++ fo ++ " -> Plan 2: " ++ fn ++ " (decrease)"))
      | _, _ => none
    else
      let increase_pct := calculate_percentage_increase od nd
      let mm := get_guideline_range od
      let min_pct := mm.1
      let max_pct := mm.2
      match format_duration od, format_duration nd with
      | some fo, some fn =>
        let calc_str := "Your Plan 1: " ++ fo ++ " -> Plan 2: " ++ fn ++ " = " ++ fmt1 increase_pct ++ "% increase"
        let confidence :=
          if PyF.ple (PyF.pabs (PyF.psub increase_pct min_pct)) (fI 2) then "review"
          else if PyF.ple (PyF.pabs (PyF.psub increase_pct max_pct)) (fI 2) then "review"
          else if PyF.plt (fI 20) increase_pct && PyF.ple increase_pct (fI 23) then "review"
          else "high"
        if PyF.plt increase_pct min_pct then
          some (GRfull false ("Maisie would have been okay to push by the normal guidelines for under 2 minutes of 10-20%. This increase of " ++ fmt1 increase_pct ++ "% is a bit conservative.") calc_str confidence)
        else if PyF.ple increase_pct (PyF.padd max_pct (fQ 1 2)) then
          some (GRfull true ("Well done on selecting a reasonable target increase for Plan 2! This is a " ++ fmt1 increase_pct ++ "% increase, which is correctly following the guidelines for increases to target durations under 2 minutes.") calc_str confidence)
        else if PyF.ple increase_pct (fI 25) then
          some (GRfull false ("You were right to increase the target duration but this increase of " ++ fmt1 increase_pct ++ "% is a little over the guidelines for durations under 2 minutes of 10-20%. When just starting out with a dog we'd be more likely to stay within those guidelines.") calc_str confidence)
        else
          some (GRfull false ("The increases here are too high at " ++ fmt1 increase_pct ++ "%. Please see the Plan Building Guidelines for target duration increases.") calc_str confidence)
      | _, _ => none

/-- `grade_maisie_q3` (lines 392-451). -/
def grade_maisie_q3 (answer q2_answer : String) : Option GradeResult :=
  let new_duration := parse_duration answer
  let old_duration := parse_duration q2_answer
  match old_duration, new_duration with
  | none, _ => some (GR false "Please provide a target duration for this plan.")
  | _, none => some (GR false "Please provide a target duration for this plan.")
  | some od, some nd =>
    if PyF.ple nd od then
      match format_duration od, format_duration nd with
      | some fo, some fn =>
        some (GRcalc false "This is not correct. Maisie did not need to drop here. Since she aced Plan 2, you should increase the target duration." ("Your Plan 2: " ++ fo ++ " -> Plan 3: " ++ fn ++ " (decrease)"))
      | _, _ => none
    else
      let increase_pct := calculate_percentage_increase od nd
      let mm := get_guideline_range od
      let min_pct := mm.1
      let max_pct := mm.2
      match format_duration od, format_duration nd with
      | some fo, some fn =>
        let calc_str := "Your Plan 2: " ++ fo ++ " -> Plan 3: " ++ fn ++ " = " ++ fmt1 increase_pct ++ "% increase"
        let confidence :=
          if PyF.ple (PyF.pabs (PyF.psub increase_pct min_pct)) (fI 2) then "review"
          else if PyF.ple (PyF.pabs (PyF.psub increase_pct max_pct)) (fI 2) then "review"
          else if PyF.plt (fI 20) increase_pct && PyF.ple increase_pct (fI 23) then "review"
          else "high"
        if PyF.plt increase_pct min_pct then
          some (GRfull false ("Maisie would have been okay to push by the normal guidelines for under 2 minutes of 10-20%. This increase of " ++ fmt1 increase_pct ++ "% is a bit conservative.") calc_str confidence)
        else if PyF.ple increase_pct (PyF.padd max_pct (fQ 1 2)) then
          some (GRfull true ("Well done on selecting another reasonable target increase for Plan 3! This is a " ++ fmt1 increase_pct ++ "% increase, which is within the guidelines.") calc_str confidence)
        else if PyF.ple increase_pct (fI 25) then
          some (GRfull false ("You were right to increase the target duration but this increase of " ++ fmt1 increase_pct ++ "% is a little over the guidelines for durations under 2 minutes of 10-20%.") calc_str confidence)
        else
          some (GRfull false ("The increases here are too high at " ++ fmt1 increase_pct ++ "%. Please see the Plan Building Guidelines for target duration increases.") calc_str confidence)
      | _, _ => none

/-- `grade_maisie_q4` (lines 454-467). -/
def grade_maisie_q4 (answer : String) : GradeResult :=
  let answer_lower := pyLowerStrip answer
  if containsSub answer_lower "door".data || containsSub answer_lower "diab".data then
    GR true "Good choice of DIAB to get Maisie back to acing sessions, since after the 2nd drop she struggled before the owners could even get out the door."
  else
    GR false "Since Maisie has already needed a couple of drops in a row and is now struggling before the owners can get out the door, we'd want to drop to something so easy she almost can't miss. Consider what would be most appropriate here."

/-! ## Minna graders (grading_logic.py lines 474-691) -/

/-- `grade_minna_q5` (lines 474-487). -/
def grade_minna_q5 (answer : String) : GradeResult :=
  match parse_duration answer with
  | none =>
    GR true "Spot on selecting DIAB! Minna was showing anxiety before her owner got out the door."
  | some _ =>
    GR false "Minna shows signs of anxiety such as pacing and whining very early on, even before the owner gets out the door. Where would you start a dog who is stressed before the owner even gets out of the door? Be sure to adjust Plans 2 and 3 accordingly."

/-- `grade_minna_q6` (lines 490-555).  The early-return block for a
non-DIAB Plan 1 only formats finite values (the `10 <= pct <= 20.5` guard
fails on NaN and infinities), so `none` from this block always means
"no early return" and never a raising `format_duration`. -/
def grade_minna_q6 (answer q5_answer : String) : Option GradeResult :=
  let duration? := parse_duration answer
  let q5_was_diab := parse_duration q5_answer = none
  match duration? with
  | none =>
    if q5_was_diab then
      some (GR true "For this assignment, we were assuming Minna completed DIAB in Plan 1 (repeating step 10 up to 5 seconds outside the door). You didn't need to choose DIAB for Plan 2, as that would be overly conservative, but it's acceptable.")
    else
      some (GR false "Please provide a target duration for Plan 2.")
  | some duration =>
    let ecf : Option GradeResult :=
      if ¬ q5_was_diab then
        let q5_duration := parse_duration q5_answer
        if PyF.truthy q5_duration && PyF.plt (fI 0) duration then
          match q5_duration with
          | some q5d =>
            let increase_pct := calculate_percentage_increase q5d duration
            let confidence :=
              if PyF.ple (PyF.pabs (PyF.psub increase_pct (fI 10))) (fI 2) ||
                  PyF.ple (PyF.pabs (PyF.psub increase_pct (fI 20))) (fI 2) then "review"
              else "high"
            if PyF.ple (fI 10) increase_pct && PyF.ple increase_pct (fQ 41 2) then
              match format_duration q5d, format_duration duration with
              | some f5, some fd =>
                some (GRfull true ("This is a " ++ fmt1 increase_pct ++ "% increase from Plan 1, which follows the guidelines.") ("Plan 1: " ++ f5 ++ " -> Plan 2: " ++ fd) confidence)
              | _, _ => none
            else none
          | none => none
        else none
      else none
    match ecf with
    | some r => some r
    | none =>
      let confidence :=
        if PyF.ple (fI 2) duration && PyF.ple duration (fI 4) then "review"
        else if PyF.ple (fI 6) duration && PyF.ple duration (fI 8) then "review"
        else "high"
      if PyF.plt duration (fI 3) then
        some (GRconf false "There is some trainer's choice once the dog has been able to do 1 sec in DIAB. Nice job not jumping up too high. We do recommend continuing with DIAB format for anything under 5 seconds. For instance, you'd repeat step 10 building up in 1sec increments to 5sec." confidence)
      else if PyF.ple duration (fI 6) then
        some (GRconf true "Nice progression of increases following DIAB! There is some trainer's choice once the dog has been able to do 1 sec with the owner outside the door in DIAB." confidence)
      else if PyF.peq duration (fI 7) then
        some (GRconf false "There is some trainer's choice once the dog has been able to do 1 sec with the owner outside the door in DIAB. The first target duration exercise after DIAB would typically start at 5 sec. If you built up to 5sec in DIAB format, you might get away with 7 sec but we don't want to push our luck." confidence)
      else
        some (GRconf false "There is some trainer's choice once the dog has been able to do 1 sec with the owner outside the door in DIAB. You can repeat step 10 building up in 1sec increments to 5sec or try 3sec then switch to a target duration. Either way, this would be too big of a jump for Plan 2." confidence)

/-- `grade_minna_q7` (lines 558-644). -/
def grade_minna_q7 (answer q6_answer : String) : Option GradeResult :=
  let new_duration := parse_duration answer
  let old_duration := parse_duration q6_answer
  match old_duration with
  | none =>
    let confidence :=
      if optCmp new_duration (fun v => PyF.ple (fI 4) v && PyF.ple v (fI 7)) then "review"
      else "high"
    if optCmp new_duration (fun v => PyF.ple (fI 5) v && PyF.ple v (fI 6)) then
      some (GRconf true "Nice increase from DIAB to Plan 3. For this assignment, we were assuming Minna completed DIAB in Plan 1." confidence)
    else if optCmp new_duration (fun v => PyF.plt v (fI 5)) then
      some (GRconf false "We recommend continuing with DIAB format for anything under 5 seconds." confidence)
    else
      some (GRconf false "This is too big of a jump after DIAB." confidence)
  | some od =>
    match new_duration with
    | none =>
      some (GR false "Minna doesn't need DIAB at this point. Please provide a target duration.")
    | some nd =>
      if PyF.ple nd od then
        some (GR false "Minna aced Plan 2, so you should increase the target duration for Plan 3.")
      else
        let increase_pct := calculate_percentage_increase od nd
        let mm := get_guideline_range od
        let min_pct := mm.1
        let max_pct := mm.2
        match format_duration od, format_duration nd with
        | some fo, some fn =>
          let calc_str := "Your Plan 2: " ++ fo ++ " -> Plan 3: " ++ fn ++ " = " ++ fmt1 increase_pct ++ "% increase"
          let confidence :=
            if PyF.ple (PyF.pabs (PyF.psub increase_pct min_pct)) (fI 2) ||
                PyF.ple (PyF.pabs (PyF.psub increase_pct max_pct)) (fI 2) then "review"
            else "high"
          let confidence :=
            if PyF.ple od (fI 6) && PyF.ple (fI 7) nd && PyF.ple nd (fI 9) then "review"
            else confidence
          if PyF.ple od (fI 6) && PyF.ple nd (fI 8) then
            some (GRfull true "Nice job selecting an appropriate increase for Plan 3. For such short durations, small absolute increases are appropriate." calc_str confidence)
          else if PyF.plt increase_pct (PyF.psub min_pct (fI 2)) then
            some (GRfull false ("This increase of " ++ fmt1 increase_pct ++ "% is a bit conservative.") calc_str confidence)
          else if PyF.ple increase_pct (PyF.padd max_pct (fI 5)) then
            some (GRfull true "Nice job selecting an appropriate increase for Plan 3." calc_str confidence)
          else
            some (GRfull false ("You selected quite a jump from Plan 2 at " ++ fmt1 increase_pct ++ "%. This might be more than Minna can cope with.") calc_str confidence)
        | _, _ => none

/-- `grade_minna_q8` (lines 647-691). -/
def grade_minna_q8 (answer : String) : GradeResult :=
  let answer_lower := pyLowerStrip answer
  if containsSub answer_lower "minute".data || containsSub answer_lower [':'] then
    GR false "This question is asking what percentage you would increase by, not the actual target duration. Since Minna has been acing session after session, this is a good time to test out pushing a little higher than the guidelines."
  else
    match findFirstDec answer_lower with
    | some pct =>
      if Q0.qlt (Q0.ofInt 10) pct && Q0.qle pct (Q0.ofInt 20) then
        GR true "Excellent choice for Minna's next push! Since she is acing session after session this is a good time to test out pushing a little higher than the guidelines."
      else if Q0.qle pct (Q0.ofInt 10) then
        GR false "Since Minna has been acing session after session, this is a good time to test out pushing a little higher than the guidelines. What might we try instead when a dog is consistently acing sessions?"
      else
        GR false "Since Minna is acing session after session this is a good time to test out pushing a little higher than the guidelines. Nice job thinking to do that, however, we don't want to risk pushing too high. An increase around 15-20% would be good here."
    | none =>
      if containsSub answer_lower "higher".data || containsSub answer_lower "more".data ||
          containsSub answer_lower "15".data || containsSub answer_lower "20".data ||
          containsSub answer_lower "push".data then
        GR true "Excellent choice! Since she is acing session after session this is a good time to test out pushing a little higher than the guidelines."
      else
        GR false "Since Minna has been acing session after session, this is a good time to test out pushing a little higher than the guidelines. What might we try instead when a dog is consistently acing sessions?"

/-! ## Oliver graders (grading_logic.py lines 698-904) -/

/-- `grade_oliver_q9` (lines 698-759). -/
def grade_oliver_q9 (answer : String) : GradeResult :=
  match parse_duration answer with
  | none =>
    GR false "Oliver did not need to start on Door is a Bore. He did well throughout the video. What would be a good target duration to start him on?"
  | some duration =>
    let minutes := PyF.pdiv duration (fI 60)
    let confidence :=
      if PyF.ple (fQ 15 4) minutes && PyF.ple minutes (fQ 17 4) then "review"
      else if PyF.ple (fQ 59 10) minutes && PyF.ple minutes (fQ 63 10) then "review"
      else "high"
    if PyF.plt minutes (fI 1) then
      GRconf false "It's okay for dogs to move around and to walk to the door to watch. This game of going and coming is different, so we will often see this, especially in earlier stages of training even when dogs are not upset. Oliver settled and looked pretty relaxed; He walks toward the door at a normal pace (not frantic), turns his head and moves a bit when he's at the door (so he's not frozen), has alert but soft eyes and soft mouth, and he sits. All that said, Oliver did well here, so what would a good target duration be to start him on?" confidence
    else if PyF.plt minutes (fI 4) then
      GRconf false "It's okay for dogs to move around and to walk to the door to watch. This game of going and coming is different, so we will often see this, especially in earlier stages of training even when dogs are not upset. Oliver settled and looked pretty relaxed. His Plan 1 target duration could have been closer to the 5-minute range. Take another look at the video." confidence
    else if PyF.plt minutes (fQ 19 4) then
      GRconf true "It's okay for dogs to move around and to walk to the door to watch. Oliver settled and looked pretty relaxed. His Plan 1 target duration could have been closer to the 5-minute range, but it's best to err on the side of caution!" confidence
    else if PyF.ple minutes (fQ 11 2) then
      GRconf true "Well done recognizing that Oliver did well for the duration of this exercise! It's okay for dogs to move around and go to the door, as long as there aren't signs of anxiety. You chose an excellent starting duration for Plan 1." confidence
    else if PyF.ple minutes (fQ 123 20) then
      GRconf true "Well done recognizing that Oliver did well for the duration of this exercise! It's okay for dogs to move around and go to the door, as long as there aren't signs of anxiety. Since this is an assessment, it was smart that you chose to shave some time off for the first exercise, just in case this happened to be a really good day for Oliver." confidence
    else if PyF.ple minutes (fQ 25 4) then
      GRconf false "Well done recognizing that Oliver did well for the duration of this exercise! It's okay for dogs to move around and go to the door, as long as there aren't signs of anxiety. The starting target is a little high though with a push over 10% when just starting with Oliver and if this was an assessment, it would be a good idea to shave some time off for the first exercise instead of push." confidence
    else
      GRconf false "Well done recognizing that Oliver did well for the duration of this exercise! However, the duration increase from the video is too high and since you are just starting with Oliver, it would be better to shave some time off for the first exercise, just in case this happened to be a really good day for Oliver." confidence

/-- `grade_oliver_q10` (lines 762-820). -/
def grade_oliver_q10 (answer q9_answer : String) : Option GradeResult :=
  let new_duration := parse_duration answer
  let old_duration := parse_duration q9_answer
  match old_duration, new_duration with
  | none, _ => some (GR false "Please provide a target duration for this plan.")
  | _, none => some (GR false "Please provide a target duration for this plan.")
  | some od, some nd =>
    if PyF.ple nd od then
      match format_duration od, format_duration nd with
      | some fo, some fn =>
        some (GRcalc false "Oliver did well with Plan 1, so you should increase the target duration for Plan 2." ("Your Plan 1: " ++ fo ++ " -> Plan 2: " ++ fn))
      | _, _ => none
    else
      let increase_pct := calculate_percentage_increase od nd
      match format_duration od, format_duration nd with
      | some fo, some fn =>
        let calc_str := "Your Plan 1: " ++ fo ++ " -> Plan 2: " ++ fn ++ " = " ++ fmt1 increase_pct ++ "% increase"
        let confidence :=
          if PyF.ple (PyF.pabs (PyF.psub increase_pct (fI 5))) (fI 2) then "review"
          else if PyF.ple (PyF.pabs (PyF.psub increase_pct (fI 10))) (fI 2) then "review"
          else if PyF.plt (fI 10) increase_pct && PyF.ple increase_pct (fI 13) then "review"
          else "high"
        if PyF.plt increase_pct (fI 4) then
          some (GRfull false ("It would have been okay to follow the guidelines here and push by 5-10% for Plan 2. This " ++ fmt1 increase_pct ++ "% increase is a bit conservative.") calc_str confidence)
        else if PyF.ple increase_pct (fQ 21 2) then
          some (GRfull true ("Excellent progress of duration to Plan 2! This is a " ++ fmt1 increase_pct ++ "% increase from Oliver's Plan 1 target duration, which is correctly following the guidelines for increases to target durations over 2 minutes.") calc_str confidence)
        else if PyF.ple increase_pct (fI 15) then
          some (GRfull false ("The increase from Plan 1 to Plan 2 is a tad higher than the guideline of 5-10% for durations over 2 min at " ++ fmt1 increase_pct ++ "%. When just starting out with a dog we'd be more likely to stay within those guidelines.") calc_str confidence)
        else
          some (GRfull false ("The increase to Plan 2 is too high at " ++ fmt1 increase_pct ++ "%. Please see the Plan Building Guidelines as a refresher.") calc_str confidence)
      | _, _ => none

/-- `grade_oliver_q11` (lines 823-872). -/
def grade_oliver_q11 (answer q9_answer q10_answer : String) : Option GradeResult :=
  let new_duration := parse_duration answer
  let q9_duration := parse_duration q9_answer
  let q10_duration := parse_duration q10_answer
  match new_duration with
  | none =>
    some (GR false "Oliver struggled with Plan 2 but doesn't need DIAB. Please provide a target duration.")
  | some nd =>
    if optCmp q10_duration (fun q10 => PyF.ple q10 nd) then
      some (GR false "Oliver struggled with his Plan 2 exercise so we would not want to stick or push. What do we do when a dog struggles?")
    else if PyF.truthy q9_duration then
      match q9_duration with
      | some q9 =>
        let diff := PyF.pabs (PyF.psub nd q9)
        let confidence :=
          if PyF.ple (fI 3) diff && PyF.ple diff (fI 8) then "review" else "high"
        if PyF.ple diff (fI 5) then
          some (GRconf true "Excellent job dropping back to the target duration from the last successful exercise when Oliver struggled! This is the rule of thumb for a first drop." confidence)
        else if PyF.plt nd q9 then
          match format_duration q9 with
          | some f9 =>
            some (GRconf false ("Great job selecting a drop here. But what should we be aiming to drop back to on the first drop? The rule of thumb is to go back to the last successful target duration, which was " ++ f9 ++ ".") confidence)
          | none => none
        else
          some (GRconf false "This is not correctly following the protocol for a dog's first drop. When a dog struggles, we drop back to the last successful target duration." confidence)
      | none => none
    else
      some (GR false "Oliver struggled with Plan 2, so we need to drop. The rule of thumb is to drop back to the last successful exercise.")

/-- `grade_oliver_q12` (lines 875-904). -/
def grade_oliver_q12 (answer : String) : GradeResult :=
  let answer_lower := pyLowerStrip answer
  if containsSub answer_lower "decrease".data || containsSub answer_lower "drop".data ||
      containsSub answer_lower "lower".data || containsSub answer_lower "reduce".data then
    GR true "Great choice to drop the target duration down when testing out reintroducing the keys. This gives Oliver the best chance of success with this previously triggering cue."
  else if containsSub answer_lower "key is a bore".data || containsSub answer_lower "kiab".data then
    GR false "Before going right to the Key is A Bore, what can we do with the TD to retest the keys since there is a chance that they will no longer be an issue now that we've built up some solid duration?"
  else if containsSub answer_lower "increase".data || containsSub answer_lower "same".data then
    GR false "When testing out adding a previously anxiety-provoking pre-departure cue we'd want to decrease the TD."
  else if containsSub answer_lower "bore".data &&
      (containsSub answer_lower "first".data || containsSub answer_lower "try".data) then
    GR true "Great choice to drop the target duration down when testing out reintroducing the keys."
  else
    GR false "When testing out adding a previously anxiety-provoking pre-departure cue, what would you do with the target duration?"

/-! ## Bella graders (grading_logic.py lines 911-1296) -/

/-- `grade_bella_q13` (lines 911-977). -/
def grade_bella_q13 (answer : String) : GradeResult :=
  match parse_duration answer with
  | none =>
    GR false "Bella does not need to start on Door is a Bore. She does well for a good portion of the absence. What would be a good target duration to start her on?"
  | some duration =>
    let minutes := PyF.pdiv duration (fI 60)
    let confidence :=
      if PyF.ple (fQ 12 5) minutes && PyF.ple minutes (fQ 27 10) then "review"
      else if PyF.ple (fQ 61 20) minutes && PyF.ple minutes (fQ 13 4) then "review"
      else "high"
    if PyF.plt minutes (fQ 3 2) then
      GRconf false "Bella actually does well for a good portion of the absence, she is watching the door and alert, but the rest of her body language is pretty relaxed. She does turn her head at the 1:26 min mark in the video, we will see dogs move around when training which can be normal. Take another peek at the video. Do you see where Bella goes from alert but settled to starting to become anxious? We want to set our first target duration to just before those first signs of anxiety start." confidence
    else if PyF.plt minutes (fQ 5 2) then
      GRconf false "Bella actually does well for a good portion of the absence. At the 3:14 timestamp, she goes off camera, whines, and comes back. This is followed by escalating signs of anxiety through the remainder of the absence. A target duration just slightly less than 3 minutes would have been a good choice for Bella, but it is always better to err on the side of caution, especially when just starting out with a dog." confidence
    else if PyF.plt minutes (fQ 267 100) then
      GRconf true "Excellent job spotting where Bella started to get anxious around the 3-minute time stamp. Good call to shave some time off for her first target duration to be safe. The amount we choose to shave off can vary based on different factors." confidence
    else if PyF.ple minutes (fQ 307 100) then
      GRconf true "Great starting target for Plan 1 since after Bella quickly trots off and whines more signs of anxiety follow." confidence
    else if PyF.ple minutes (fQ 63 20) then
      GRconf true "Good job noticing that after Bella whines she escalates with more signs of anxiety. You might even want to start closer to 3 minutes or slightly before since after Bella quickly trots off more signs of anxiety follow." confidence
    else if PyF.ple minutes (fQ 317 100) then
      GRconf true "Good job noticing that after Bella whines she escalates with more signs of anxiety. Since she whines 3:10 into the absence we'd want to start her first exercise before those first signs of anxiety. Starting closer to 3 minutes or a little before to shave some time off would be a better choice for Bella." confidence
    else if PyF.ple minutes (fQ 17 5) then
      GRconf false "Bella started to show first signs of stress before this duration. Remember, we want to go off total absence time, not the time stamp, and the owner left 14 seconds into the video. You'd want to select a target duration for Plan 1 that is slightly shorter than when Bella started to show those first signs of anxiety." confidence
    else
      GRconf false "Take another look at Bella's video. Do you see or hear any signs of stress, and if so, how long into the absence do they begin? You'd want to select a target duration for Plan 1 that is slightly shorter than that, shaving off some time to play it safe." confidence

/-- `grade_bella_q13b` (lines 980-1026). -/
def grade_bella_q13b (answer q13_answer : String) : GradeResult :=
  let q13_duration := parse_duration q13_answer
  let answer_lower := pyLowerStrip answer
  let warmups? : Option ℕ :=
    if containsSub answer_lower "none".data || answer_lower = ['0'] then some 0
    else findFirstNat answer.data
  match warmups? with
  | none => GR false "Please provide a number of warmup steps."
  | some warmups =>
    let mm : ℤ × ℤ :=
      if PyF.truthy q13_duration then
        match q13_duration with
        | some d => get_warmup_range d
        | none => (4, 7)
      else (4, 7)
    let min_warmups := mm.1
    let max_warmups := mm.2
    if warmups = 0 then
      GR false "For target durations between 1 and 5 minutes, we should include some warmup steps. What would be an appropriate number of warmups for Bella's duration?"
    else if (warmups : ℤ) < min_warmups then
      GR false ("This number of warmups is a bit low for a target duration in this range. The guidelines suggest " ++ String.mk (intToChars min_warmups) ++ "-" ++ String.mk (intToChars max_warmups) ++ " warmup steps.")
    else if (warmups : ℤ) ≤ max_warmups then
      GR true "Good job following the warmup guidelines for a target duration between 1 and 5 minutes."
    else
      GR false ("This number of warmups is outside of the guidelines for a target duration between 1 and 5 minutes. The guidelines suggest " ++ String.mk (intToChars min_warmups) ++ "-" ++ String.mk (intToChars max_warmups) ++ " warmup steps.")

/-- `grade_bella_q14` (lines 1029-1095). -/
def grade_bella_q14 (answer q13_answer : String) : Option GradeResult :=
  let new_duration := parse_duration answer
  let old_duration := parse_duration q13_answer
  match old_duration, new_duration with
  | none, _ => some (GR false "Please provide a target duration for this plan.")
  | _, none => some (GR false "Please provide a target duration for this plan.")
  | some od, some nd =>
    if PyF.plt nd od then
      match format_duration od, format_duration nd with
      | some fo, some fn =>
        some (GRcalc false "Even though Bella wobbled on the warmups in Plan 1 she aced the target so you could push ahead with an increase for Plan 2. We base whether to push or drop on how a dog did on the target duration unless they completely fall apart in the warm-ups." ("Your Plan 1: " ++ fo ++ " -> Plan 2: " ++ fn ++ " (decrease)"))
      | _, _ => none
    else if PyF.peq nd od then
      match format_duration od, format_duration nd with
      | some fo, some fn =>
        some (GRcalc false "Since Bella aced the target duration in Plan 1, you should increase for Plan 2." ("Your Plan 1: " ++ fo ++ " -> Plan 2: " ++ fn ++ " (same)"))
      | _, _ => none
    else
      let increase_pct := calculate_percentage_increase od nd
      let mm := get_guideline_range od
      let min_pct := mm.1
      let max_pct := mm.2
      match format_duration od, format_duration nd with
      | some fo, some fn =>
        let calc_str := "Your Plan 1: " ++ fo ++ " -> Plan 2: " ++ fn ++ " = " ++ fmt1 increase_pct ++ "% increase"
        let confidence :=
          if PyF.ple (PyF.pabs (PyF.psub increase_pct min_pct)) (fI 2) then "review"
          else if PyF.ple (PyF.pabs (PyF.psub increase_pct max_pct)) (fI 2) then "review"
          else if PyF.plt max_pct increase_pct && PyF.ple increase_pct (PyF.padd max_pct (fI 3)) then "review"
          else "high"
        if PyF.plt increase_pct (PyF.psub min_pct (fI 1)) then
          some (GRfull false ("This increase of " ++ fmt1 increase_pct ++ "% is below the recommended guidelines for increases to target durations " ++ (if PyF.plt od (fI 120) then "under" else "over") ++ " 2 minutes.") calc_str confidence)
        else if PyF.ple increase_pct (PyF.padd max_pct (fQ 1 2)) then
          some (GRfull true "Nice progression of duration to Plan 2! Even though Bella wobbled on the warmups in Plan 1 she aced the target so good call to increase the target for Plan 2." calc_str confidence)
        else if PyF.ple increase_pct (PyF.padd max_pct (fI 3)) then
          some (GRfull false ("The increase from Plan 1 to Plan 2 at " ++ fmt1 increase_pct ++ "% is a tad higher than the guideline of " ++ fmtInt min_pct ++ "-" ++ fmtInt max_pct ++ "% for durations " ++ (if PyF.plt od (fI 120) then "under" else "over") ++ " 2 min. When just starting out with a dog we'd be more likely to stay within those guidelines.") calc_str confidence)
        else
          some (GRfull false ("This is a bit too high of an increase from Plan 1 at " ++ fmt1 increase_pct ++ "%.") calc_str confidence)
      | _, _ => none

/-- `grade_bella_q14b` (lines 1098-1142). -/
def grade_bella_q14b (answer q13b_answer : String) : GradeResult :=
  let answer_lower := pyLowerStrip answer
  let new_warmups : Option ℕ :=
    if containsSub answer_lower "none".data || answer_lower = ['0'] then some 0
    else findFirstNat answer.data
  let q13b_lower := pyLowerStrip q13b_answer
  let old_warmups : ℕ :=
    if containsSub q13b_lower "none".data || q13b_lower = ['0'] then 0
    else
      match findFirstNat q13b_answer.data with
      | some n => n
      | none => 7
  match new_warmups with
  | none => GR false "Please provide a number of warmup steps."
  | some nw =>
    if nw = 0 then
      GR true "Great job removing the warmups since she struggled. It would also have been fine to test out reducing the number, keeping a few warm up steps."
    else if nw < old_warmups then
      if old_warmups - nw ≥ 2 then
        GR true "Nice job testing out fewer warmups with Bella and keeping them reduced since it helped!"
      else
        GR true "Great call to reduce warmup steps. It would be best to reduce by a couple steps versus 1, especially since Bella wobbled on a couple."
    else
      GR false "When a dog seems to get more agitated as the warmups go on what can we test out doing with the warmup steps?"

/-- `grade_bella_q15` (lines 1145-1197). -/
def grade_bella_q15 (answer q14_answer : String) : Option GradeResult :=
  let new_duration := parse_duration answer
  let old_duration := parse_duration q14_answer
  match old_duration, new_duration with
  | none, _ => some (GR false "Please provide a target duration for this plan.")
  | _, none => some (GR false "Please provide a target duration for this plan.")
  | some od, some nd =>
    if PyF.ple nd od then
      match format_duration od, format_duration nd with
      | some fo, some fn =>
        some (GRcalc false "Bella aced Plan 2, so you should increase the target duration for Plan 3." ("Your Plan 2: " ++ fo ++ " -> Plan 3: " ++ fn))
      | _, _ => none
    else
      let increase_pct := calculate_percentage_increase od nd
      let mm := get_guideline_range od
      let min_pct := mm.1
      let max_pct := mm.2
      match format_duration od, format_duration nd with
      | some fo, some fn =>
        let calc_str := "Your Plan 2: " ++ fo ++ " -> Plan 3: " ++ fn ++ " = " ++ fmt1 increase_pct ++ "% increase"
        let confidence :=
          if PyF.ple (PyF.pabs (PyF.psub increase_pct min_pct)) (fI 2) then "review"
          else if PyF.ple (PyF.pabs (PyF.psub increase_pct max_pct)) (fI 2) then "review"
          else if PyF.plt max_pct increase_pct && PyF.ple increase_pct (PyF.padd max_pct (fI 3)) then "review"
          else "high"
        if PyF.plt increase_pct (PyF.psub min_pct (fI 1)) then
          some (GRfull false ("This increase of " ++ fmt1 increase_pct ++ "% is below the recommended guidelines for increases to target durations " ++ (if PyF.plt od (fI 120) then "under" else "over") ++ " 2 minutes.") calc_str confidence)
        else if PyF.ple increase_pct (PyF.padd max_pct (fQ 1 2)) then
          some (GRfull true ("This is a " ++ fmt1 increase_pct ++ "% increase from Bella's Plan 2, which is within the guidelines for durations " ++ (if PyF.plt od (fI 120) then "under" else "over") ++ " 2 min.") calc_str confidence)
        else
          some (GRfull false ("This is a bit too high of an increase from what you set Bella's Plan 2 target duration at " ++ fmt1 increase_pct ++ "%.") calc_str confidence)
      | _, _ => none

/-- `grade_bella_q15b` (lines 1200-1232). -/
def grade_bella_q15b (answer q14b_answer : String) : GradeResult :=
  let answer_lower := pyLowerStrip answer
  let new_warmups : Option ℕ :=
    if containsSub answer_lower "none".data || answer_lower = ['0'] then some 0
    else findFirstNat answer.data
  let q14b_lower := pyLowerStrip q14b_answer
  let old_warmups : ℕ :=
    if containsSub q14b_lower "none".data || q14b_lower = ['0'] then 0
    else
      match findFirstNat q14b_answer.data with
      | some n => n
      | none => 0
  match new_warmups with
  | none => GR false "Please provide a number of warmup steps."
  | some nw =>
    if nw ≤ old_warmups then
      GR true "Good job keeping the warmup steps consistent with Plan 2. This stability in the warmup routine can be beneficial for Bella's progress."
    else
      GR false "Nice job testing out fewer warmups with Bella in Plan 2. Since this helped we would not want to add them back in on later plans."

/-- `grade_bella_q16` (lines 1235-1296). -/
def grade_bella_q16 (answer : String) : GradeResult :=
  let answer_lower := pyLowerStrip answer
  let has_ciab := containsSub answer_lower "car is a bore".data ||
    containsSub answer_lower "ciab".data || containsSub answer_lower "bore".data
  let has_intensity := containsSub answer_lower "further".data ||
    containsSub answer_lower "distance".data || containsSub answer_lower "away".data ||
    containsSub answer_lower "intensity".data
  let mentions_starting_engine :=
    (containsSub answer_lower "start".data &&
      (containsSub answer_lower "engine".data || containsSub answer_lower "car".data)) ||
    (containsSub answer_lower "turn".data && containsSub answer_lower "on".data)
  let has_step := containsSub answer_lower "step".data
  let blk1 : Option GradeResult :=
    if has_ciab && has_step then
      match findStepNum answer_lower with
      | some step_num =>
        if step_num ≤ 7 then
          some (GR true "Nice! Since we already know that turning the car on causes anxiety, we can go right to Car is A Bore. Excellent thinking breaking down the process. It's good to start a couple of steps back from where the dog first started showing signs of anxiety. You might try starting with something like step 5 in the driveway.")
        else
          some (GR false "Good thinking to work on Car is a Bore. Since we already know that turning the car on caused anxiety for Bella we would not want to start on a step that has turning the engine on in it. We always want to start on a step that the dog will be completely comfortable with.")
      | none => none
    else none
  match blk1 with
  | some r => r
  | none =>
    if has_intensity && (has_ciab || containsSub answer_lower "car".data) then
      GR true "Nice thinking about parking the car further away to dial down the intensity when it's possible for the owner. If parking further away solves the issue and that is something they want to continue, excellent. It could even be a management tool while working on car is a bore. If the owner will need to have the car closer to home at some point it could work to gradually move the car closer, however, it may be easier to work on Car is a Bore with the car in the driveway/garage if that's the end goal. You might try starting with something like step 5 in the driveway."
    else if has_ciab then
      GR true "Good thinking to work on Car is a Bore. You might try starting with something like step 5 in the Car is a Bore plan."
    else if (containsSub answer_lower "open".data || containsSub answer_lower "door".data ||
        containsSub answer_lower "sit".data || containsSub answer_lower "get in".data) &&
        containsSub answer_lower "car".data && !mentions_starting_engine then
      GR true "Good thinking to work on Car is a Bore. Since we already know that turning the car on caused anxiety for Bella we would not want to start on a step that has turning the engine on in it. We always want to start on a step that the dog will be completely comfortable with."
    else if containsSub answer_lower "assessment".data then
      GR false "Since we already know that turning the car on caused anxiety for Bella we would not need to do an assessment. We can go right to the Car is a Bore plan."
    else
      GR false "Since turning the car on caused anxiety for Bella what can we do to help desensitize her to the car?"

/-- `grade_diab_q17` (lines 1299-1343). -/
def grade_diab_q17 (answer : String) : GradeResult :=
  let answer_lower := pyLowerStrip answer
  match findFirstNat answer.data with
  | none =>
    if containsSub answer_lower "one".data || containsSub answer_lower "a rep".data ||
        containsSub answer_lower "couple".data then
      GR true "Excellent! We would only need to do a couple repetitions to warmup the dog."
    else
      GR false "Please specify how many repetitions."
  | some reps =>
    if reps = 0 then
      GR false "You might get away with not doing any warmups for DIAB, especially once the dog becomes a pro at the game. However, when starting it would be good to do 2-3 reps of the previous step or 2 to warm the dog up."
    else if reps ≤ 3 then
      GR true "Excellent! We would only need to do a couple repetitions to warmup the dog."
    else if reps ≤ 4 then
      GR true "You are right that you would not need them to repeat the entire previous step or steps. We'd only need to do a couple of reps to warm up the dog, even 2-3 reps of the previous step or 2 might be enough."
    else if reps ≤ 10 then
      GR false "We'd only need to do a couple of reps to warm up the dog. 2-3 reps of the previous step or 2 is usually good for most dogs."
    else
      GR false "When doing DIAB we do not need to repeat all 10 reps of the previous steps. That would be too many reps just to complete Step 3. We only need to warm the dog up a little."

/-! ## Submission and overall aggregation (grading_logic.py lines 1350-1456) -/

/-- The answer map handed to `grade_submission`: a Python dict from
question-id strings to answer strings (`none` = key absent). -/
abbrev AnswerMap : Type := String → Option String

/-- Python `answers.get(k, '')`. -/
def gget (m : AnswerMap) (k : String) : String :=
  (m k).getD ""

/-- The body of `grade_submission` reading answers through a getter.  With
`api_key = None` the LLM normalisation loop is skipped and
`normalized_answers` equals `answers`, so every read is a plain
`answers.get(q_id, '')`.  The results are collected in the source's
insertion order; `none` means an uncaught exception during some grader. -/
def gradeAll (g : String → String) : Option (List (String × GradeResult)) := do
  let r1 := grade_maisie_q1 (g "q1")
  let r2 ← grade_maisie_q2 (g "q2") (g "q1")
  let r3 ← grade_maisie_q3 (g "q3") (g "q2")
  let r4 := grade_maisie_q4 (g "q4")
  let r5 := grade_minna_q5 (g "q5")
  let r6 ← grade_minna_q6 (g "q6") (g "q5")
  let r7 ← grade_minna_q7 (g "q7") (g "q6")
  let r8 := grade_minna_q8 (g "q8")
  let r9 := grade_oliver_q9 (g "q9")
  let r10 ← grade_oliver_q10 (g "q10") (g "q9")
  let r11 ← grade_oliver_q11 (g "q11") (g "q9") (g "q10")
  let r12 := grade_oliver_q12 (g "q12")
  let r13 := grade_bella_q13 (g "q13")
  let r13b := grade_bella_q13b (g "q13b") (g "q13")
  let r14 ← grade_bella_q14 (g "q14") (g "q13")
  let r14b := grade_bella_q14b (g "q14b") (g "q13b")
  let r15 ← grade_bella_q15 (g "q15") (g "q14")
  let r15b := grade_bella_q15b (g "q15b") (g "q14b")
  let r16 := grade_bella_q16 (g "q16")
  let r17 := grade_diab_q17 (g "q17")
  pure [("q1", r1), ("q2", r2), ("q3", r3), ("q4", r4),
    ("q5", r5), ("q6", r6), ("q7", r7), ("q8", r8),
    ("q9", r9), ("q10", r10), ("q11", r11), ("q12", r12),
    ("q13", r13), ("q13b", r13b), ("q14", r14), ("q14b", r14b),
    ("q15", r15), ("q15b", r15b), ("q16", r16), ("q17", r17)]

/-- `grade_submission` (lines 1350-1404) with `api_key = None`. -/
def grade_submission (answers : AnswerMap) : Option (List (String × GradeResult)) :=
  gradeAll (gget answers)

/-- The fixed question-id set, in the insertion order of
`grade_submission`. -/
def fixedQids : List String :=
  ["q1", "q2", "q3", "q4", "q5", "q6", "q7", "q8", "q9", "q10", "q11", "q12",
   "q13", "q13b", "q14", "q14b", "q15", "q15b", "q16", "q17"]

/-- `question_labels.get(q_id, q_id)` of `determine_overall_grade`. -/
def questionLabel (q : String) : String :=
  if q = "q1" then "Maisie's Plan 1 Target Duration"
  else if q = "q2" then "Maisie's Plan 2 Target Duration"
  else if q = "q3" then "Maisie's Plan 3 Target Duration"
  else if q = "q4" then "Maisie After Struggle"
  else if q = "q5" then "Minna's Plan 1 Target Duration"
  else if q = "q6" then "Minna's Plan 2 Target Duration"
  else if q = "q7" then "Minna's Plan 3 Target Duration"
  else if q = "q8" then "Minna Target Duration Increase"
  else if q = "q9" then "Oliver's Plan 1 Target Duration"
  else if q = "q10" then "Oliver's Plan 2 Target Duration"
  else if q = "q11" then "Oliver's Plan 3 Target Duration"
  else if q = "q12" then "Oliver Keys Testing"
  else if q = "q13" then "Bella's Plan 1 Target Duration"
  else if q = "q13b" then "Bella's Plan 1 Warmups"
  else if q = "q14" then "Bella's Plan 2 Target Duration"
  else if q = "q14b" then "Bella's Plan 2 Warmups"
  else if q = "q15" then "Bella's Plan 3 Target Duration"
  else if q = "q15b" then "Bella's Plan 3 Warmups"
  else if q = "q16" then "Bella Car Protocol"
  else if q = "q17" then "DIAB Warmups"
  else q

/-- The critical-question id list of `determine_overall_grade` (line 1450). -/
def criticalIds : List String :=
  ["q1", "q5", "q9", "q13", "q4"]

/-- `determine_overall_grade` (lines 1407-1456): the results dict is a list
of (question id, result) pairs in its iteration order. -/
def determine_overall_grade (results : List (String × GradeResult)) :
    String × List (String × String) :=
  let incorrect_questions :=
    results.foldl
      (fun acc qr => if qr.2.is_correct then acc else acc ++ [(qr.1, questionLabel qr.1)])
      []
  if incorrect_questions.length = 0 then ("Cleared", [])
  else if incorrect_questions.length ≤ 2 then
    let critical_errors : List String :=
      (incorrect_questions.filter (fun x => criticalIds.contains x.1)).map (fun x => x.1)
    if critical_errors ≠ [] then ("Resubmit", incorrect_questions)
    else ("Cleared", incorrect_questions)
  else ("Resubmit", incorrect_questions)

/-- The answer map exhibiting the totality bug: `float("inf")` survives
`parse_duration`, and `format_duration` then raises on it. -/
def bugAnswers : AnswerMap :=
  fun k => if k = "q1" then some "10" else if k = "q2" then some "inf" else none

/-- The ten decimal digit characters (the alphabet of `natToChars`). -/
def digitChars : List Char :=
  ['0', '1', '2', '3', '4', '5', '6', '7', '8', '9']

/-- Every character that can occur in a string produced by
`format_duration`: digits plus the letters of " seconds"/" minutes"/
" minute", the space and the colon. -/
def durChars : List Char :=
  digitChars ++ [' ', ':', 's', 'e', 'c', 'o', 'n', 'd', 'm', 'i', 'u', 't']

/-! # Theorems

First the bridge between `Q0` and `ℚ`, then small helper lemmas, then one
theorem per claim (with witnesses and counterexamples). -/

namespace Q0

theorem toQ_ofInt (n : ℤ) : (ofInt n).toQ = (n : ℚ) := by
  simp [toQ, ofInt]

theorem toQ_ofQ (q : ℚ) : (ofQ q).toQ = q := by
  simp [toQ, ofQ, Rat.num_div_den]

theorem den_ofQ_pos (q : ℚ) : 0 < (ofQ q).den := by
  simpa [ofQ] using q.pos

theorem den_ofInt_pos (n : ℤ) : 0 < (ofInt n).den := by
  simp [ofInt]

theorem denQ_pos {a : Q0} (ha : 0 < a.den) : (0 : ℚ) < (a.den : ℚ) := by
  exact_mod_cast ha

theorem qle_iff {a b : Q0} (ha : 0 < a.den) (hb : 0 < b.den) :
    qle a b = true ↔ a.toQ ≤ b.toQ := by
  rw [qle, decide_eq_true_eq, toQ, toQ, div_le_div_iff₀ (denQ_pos ha) (denQ_pos hb)]
  exact_mod_cast Iff.rfl

theorem qlt_iff {a b : Q0} (ha : 0 < a.den) (hb : 0 < b.den) :
    qlt a b = true ↔ a.toQ < b.toQ := by
  rw [qlt, decide_eq_true_eq, toQ, toQ, div_lt_div_iff₀ (denQ_pos ha) (denQ_pos hb)]
  exact_mod_cast Iff.rfl

theorem qeq_iff {a b : Q0} (ha : 0 < a.den) (hb : 0 < b.den) :
    qeq a b = true ↔ a.toQ = b.toQ := by
  rw [qeq, decide_eq_true_eq, toQ, toQ,
    div_eq_div_iff (ne_of_gt (denQ_pos ha)) (ne_of_gt (denQ_pos hb))]
  exact_mod_cast Iff.rfl

theorem toQ_qadd {a b : Q0} (ha : 0 < a.den) (hb : 0 < b.den) :
    (qadd a b).toQ = a.toQ + b.toQ := by
  rw [qadd, toQ, toQ, toQ]
  push_cast
  rw [div_add_div _ _ (ne_of_gt (denQ_pos ha)) (ne_of_gt (denQ_pos hb))]
  ring_nf

theorem toQ_qneg (a : Q0) : (qneg a).toQ = -a.toQ := by
  simp [qneg, toQ, neg_div]

theorem toQ_qsub {a b : Q0} (ha : 0 < a.den) (hb : 0 < b.den) :
    (qsub a b).toQ = a.toQ - b.toQ := by
  rw [qsub, toQ_qadd ha (by simpa [qneg] using hb), toQ_qneg, sub_eq_add_neg]

theorem toQ_qmul (a b : Q0) : (qmul a b).toQ = a.toQ * b.toQ := by
  rw [qmul, toQ, toQ, toQ]
  push_cast
  rw [div_mul_div_comm]

theorem toQ_qdiv (a b : Q0) : (qdiv a b).toQ = a.toQ / b.toQ := by
  rw [toQ, toQ, toQ, div_div_eq_mul_div, div_mul_eq_mul_div, div_div, qdiv]
  split
  · dsimp only
    push_cast
    rw [mul_neg, neg_div_neg_eq]
  · dsimp only
    push_cast
    rfl

theorem toQ_qabs (a : Q0) (ha : 0 < a.den) : (qabs a).toQ = |a.toQ| := by
  rw [qabs, toQ, toQ, abs_div]
  congr 1
  · push_cast
    rfl
  · rw [abs_of_pos (denQ_pos ha)]

theorem den_qadd {a b : Q0} (ha : 0 < a.den) (hb : 0 < b.den) : 0 < (qadd a b).den :=
  mul_pos ha hb

theorem den_qneg {a : Q0} (ha : 0 < a.den) : 0 < (qneg a).den := ha

theorem den_qsub {a b : Q0} (ha : 0 < a.den) (hb : 0 < b.den) : 0 < (qsub a b).den :=
  mul_pos ha hb

theorem den_qmul {a b : Q0} (ha : 0 < a.den) (hb : 0 < b.den) : 0 < (qmul a b).den :=
  mul_pos ha hb

theorem den_qabs {a : Q0} (ha : 0 < a.den) : 0 < (qabs a).den := ha

theorem den_qdiv {a b : Q0} (ha : 0 < a.den) (hb : b.num ≠ 0) : 0 < (qdiv a b).den := by
  rw [qdiv]
  split
  · exact mul_pos ha (by omega)
  · exact mul_pos ha (by omega)

theorem isZero_iff {a : Q0} (ha : 0 < a.den) : isZero a = true ↔ a.toQ = 0 := by
  rw [isZero, decide_eq_true_eq, toQ, div_eq_zero_iff]
  constructor
  · intro h
    exact Or.inl (by exact_mod_cast h)
  · rintro (h | h)
    · exact_mod_cast h
    · exact absurd h (ne_of_gt (denQ_pos ha))

theorem isPos_iff {a : Q0} (ha : 0 < a.den) : isPos a = true ↔ 0 < a.toQ := by
  rw [isPos, decide_eq_true_eq, toQ, lt_div_iff₀ (denQ_pos ha), zero_mul]
  exact_mod_cast Iff.rfl

theorem qfloor_eq {a : Q0} (ha : 0 < a.den) : qfloor a = ⌊a.toQ⌋ := by
  rw [qfloor, toQ, Int.fdiv_eq_ediv _ (le_of_lt ha)]
  rcases a with ⟨n, d⟩
  dsimp at ha ⊢
  lift d to ℕ using le_of_lt ha with d'
  push_cast
  exact (Rat.floor_intCast_div_natCast n d').symm

theorem qtrunc_eq_floor {a : Q0} (ha : 0 < a.den) (h0 : 0 ≤ a.toQ) :
    qtrunc a = ⌊a.toQ⌋ := by
  have hn : 0 ≤ a.num := by
    rw [toQ, le_div_iff₀ (denQ_pos ha), zero_mul] at h0
    exact_mod_cast h0
  rw [qtrunc, Int.tdiv_eq_ediv hn (le_of_lt ha), ← Int.fdiv_eq_ediv _ (le_of_lt ha),
    ← qfloor, qfloor_eq ha]

end Q0

/-! ## Small helper lemmas -/

theorem bool_eq_decide {b : Bool} {P : Prop} [Decidable P] (h : b = true ↔ P) :
    b = decide P := by
  by_cases hp : P
  · simp [hp, h.mpr hp]
  · rcases Bool.eq_false_or_eq_true b with hb | hb
    · exact absurd (h.mp hb) hp
    · simp [hp, hb]

theorem plt_fin_eq {a b : Q0} (ha : 0 < a.den) (hb : 0 < b.den) :
    PyF.plt (.fin a) (.fin b) = decide (a.toQ < b.toQ) :=
  bool_eq_decide (Q0.qlt_iff ha hb)

theorem ple_fin_eq {a b : Q0} (ha : 0 < a.den) (hb : 0 < b.den) :
    PyF.ple (.fin a) (.fin b) = decide (a.toQ ≤ b.toQ) :=
  bool_eq_decide (Q0.qle_iff ha hb)

theorem peq_fin_eq {a b : Q0} (ha : 0 < a.den) (hb : 0 < b.den) :
    PyF.peq (.fin a) (.fin b) = decide (a.toQ = b.toQ) :=
  bool_eq_decide (Q0.qeq_iff ha hb)

/-- The `for` loop of `determine_overall_grade` collects exactly the
incorrect entries, labelled, in order. -/
theorem incorrect_foldl (l : List (String × GradeResult)) (acc : List (String × String)) :
    l.foldl
      (fun acc qr => if qr.2.is_correct then acc else acc ++ [(qr.1, questionLabel qr.1)]) acc
      = acc ++ (l.filter (fun qr => !qr.2.is_correct)).map (fun qr => (qr.1, questionLabel qr.1)) := by
  induction l generalizing acc with
  | nil => simp
  | cons x xs ih =>
    rw [List.foldl_cons, List.filter_cons]
    by_cases hx : x.2.is_correct
    · simp [hx, ih]
    · simp [hx, ih]

/-! ## C1 — Overall Decision Aggregator -/

/-- C1: for every complete map of GradeResults, `determine_overall_grade`
returns Cleared with an empty resubmit list when zero results are
incorrect; with 1 or 2 incorrect results it returns Resubmit with the list
of incorrect (question-id, label) pairs when some incorrect question is
critical (q1, q5, q9, q13, q4) and Cleared otherwise; with 3 or more
incorrect results it returns Resubmit with the full list. -/
theorem C1_overall_decision (results : List (String × GradeResult))
    (hk : (results.map Prod.fst).Perm fixedQids) :
    ((results.filter (fun qr => !qr.2.is_correct)).length = 0 →
      determine_overall_grade results = ("Cleared", [])) ∧
    (1 ≤ (results.filter (fun qr => !qr.2.is_correct)).length →
      (results.filter (fun qr => !qr.2.is_correct)).length ≤ 2 →
      ((∃ qr ∈ results, qr.2.is_correct = false ∧ qr.1 ∈ criticalIds) →
        determine_overall_grade results =
          ("Resubmit", (results.filter (fun qr => !qr.2.is_correct)).map
            (fun qr => (qr.1, questionLabel qr.1)))) ∧
      ((¬ ∃ qr ∈ results, qr.2.is_correct = false ∧ qr.1 ∈ criticalIds) →
        determine_overall_grade results =
          ("Cleared", (results.filter (fun qr => !qr.2.is_correct)).map
            (fun qr => (qr.1, questionLabel qr.1))))) ∧
    (3 ≤ (results.filter (fun qr => !qr.2.is_correct)).length →
      determine_overall_grade results =
        ("Resubmit", (results.filter (fun qr => !qr.2.is_correct)).map
          (fun qr => (qr.1, questionLabel qr.1)))) := by
  have hunf : determine_overall_grade results =
      (let incorrect := (results.filter (fun qr => !qr.2.is_correct)).map
        (fun qr => (qr.1, questionLabel qr.1))
      if incorrect.length = 0 then ("Cleared", [])
      else if incorrect.length ≤ 2 then
        if (incorrect.filter (fun x => criticalIds.contains x.1)).map (fun x => x.1) ≠ [] then
          ("Resubmit", incorrect)
        else ("Cleared", incorrect)
      else ("Resubmit", incorrect)) := by
    rw [determine_overall_grade, incorrect_foldl, List.nil_append]
  have hlen : ((results.filter (fun qr => !qr.2.is_correct)).map
      (fun qr => (qr.1, questionLabel qr.1))).length
      = (results.filter (fun qr => !qr.2.is_correct)).length := List.length_map _ _
  have hcrit : (((results.filter (fun qr => !qr.2.is_correct)).map
        (fun qr => (qr.1, questionLabel qr.1))).filter
          (fun x => criticalIds.contains x.1)).map (fun x => x.1) ≠ [] ↔
      (∃ qr ∈ results, qr.2.is_correct = false ∧ qr.1 ∈ criticalIds) := by
    rw [Ne, List.map_eq_nil_iff, List.filter_eq_nil_iff]
    push_neg
    constructor
    · rintro ⟨x, hx, hc⟩
      rcases List.mem_map.mp hx with ⟨qr, hqr, rfl⟩
      rcases List.mem_filter.mp hqr with ⟨hqr2, hqr3⟩
      exact ⟨qr, hqr2, by simpa using hqr3, by simpa using hc⟩
    · rintro ⟨qr, hqr, hic, hmem⟩
      refine ⟨(qr.1, questionLabel qr.1), List.mem_map.mpr
        ⟨qr, List.mem_filter.mpr ⟨hqr, by simp [hic]⟩, rfl⟩, by simpa using hmem⟩
  refine ⟨fun h0 => ?_, fun h1 h2 => ⟨fun hex => ?_, fun hnex => ?_⟩, fun h3 => ?_⟩
  · rw [hunf]
    simp only [hlen, h0]
    simp
  · rw [hunf]
    simp only [hlen]
    rw [if_neg (by omega), if_pos (by omega), if_pos (hcrit.mpr hex)]
  · rw [hunf]
    simp only [hlen]
    rw [if_neg (by omega), if_pos (by omega), if_neg (fun hc => hnex (hcrit.mp hc))]
  · rw [hunf]
    simp only [hlen]
    rw [if_neg (by omega), if_neg (by omega)]

/-- Witness for C1 at a concrete complete map: all twenty results correct
gives Cleared with the empty list. -/
theorem C1_overall_decision_witness :
    determine_overall_grade (fixedQids.map (fun q => (q, GR true "ok"))) = ("Cleared", []) :=
  (C1_overall_decision (fixedQids.map (fun q => (q, GR true "ok"))) (by decide)).1 (by decide)

/-! ## C2 — totality of grade_submission (code bug) -/

/-- C2 (code bug evaluation): `parse_duration` accepts the string `"inf"`
(Python's `float` parses it as the infinite float), and `grade_submission`
on the answer map q1 = "10", q2 = "inf" raises instead of returning a
result map: `grade_maisie_q2` formats the new duration and
`format_duration(inf)`'s `int` conversion raises. -/
theorem C2_bug_eval :
    parse_duration "inf" = some PyF.inf ∧ grade_submission bugAnswers = none :=
  ⟨by decide, by decide⟩

/-! ## C7 — warmup-count table -/

/-- C7: `get_warmup_range` is the 4-bucket step function (<1 min gives
(7,9); 1-5 min gives (4,7); 5-15 min gives (1,5); at or over 15 min gives
(1,2)); with a prior target duration of 90 seconds, a warmup answer of "8"
is graded incorrect (too many) and "5" is graded correct. -/
theorem C7_warmup_table :
    (∀ d : ℚ, get_warmup_range (.fin (Q0.ofQ d)) =
      if d < 60 then (7, 9) else if d < 300 then (4, 7)
      else if d < 900 then (1, 5) else (1, 2)) ∧
    grade_bella_q13b "8" "90" = GR false "This number of warmups is outside of the guidelines for a target duration between 1 and 5 minutes. The guidelines suggest 4-7 warmup steps." ∧
    grade_bella_q13b "5" "90" = GR true "Good job following the warmup guidelines for a target duration between 1 and 5 minutes." := by
  refine ⟨fun d => ?_, by decide, by decide⟩
  have hd := Q0.den_ofQ_pos d
  have h : ∀ n : ℤ, PyF.plt (.fin (Q0.ofQ d)) (fI n) = decide (d < (n : ℚ)) := by
    intro n
    rw [fI, plt_fin_eq hd (Q0.den_ofInt_pos n), Q0.toQ_ofQ, Q0.toQ_ofInt]
  rw [get_warmup_range, h 60, h 300, h 900]
  norm_num

/-! ## C9 — missing key equals empty string -/

/-- C9: for any answer map, any fixed question id absent from it, and no
configured normalizer, `grade_submission` returns the same results when
the missing key is added with the empty string as its answer. -/
theorem C9_missing_key_empty (m : AnswerMap) (q : String)
    (hq : q ∈ fixedQids) (hm : m q = none) :
    grade_submission m = grade_submission (fun k => if k = q then some "" else m k) := by
  unfold grade_submission
  congr 1
  funext k
  unfold gget
  by_cases hk : k = q
  · subst hk
    simp [hm]
  · simp [hk]

/-- Witness for C9 at the empty answer map and the fixed id q1. -/
theorem C9_missing_key_empty_witness :
    ("q1" ∈ fixedQids ∧ (none : Option String) = none) ∧
    grade_submission (fun _ => none) =
      grade_submission (fun k => if k = "q1" then some "" else none) :=
  ⟨⟨by decide, rfl⟩, C9_missing_key_empty (fun _ => none) "q1" (by decide) rfl⟩

/-! ## Condition-evaluation lemmas for the symbolic grader proofs -/

theorem toQ_mk (x y : ℤ) : (⟨x, y⟩ : Q0).toQ = (x : ℚ) / (y : ℚ) := rfl

theorem cond_abs_le (v : Q0) (hd : 0 < v.den) (m c : ℤ) :
    PyF.ple (PyF.pabs (PyF.psub (.fin v) (fI m))) (fI c)
      = decide (|v.toQ - (m : ℚ)| ≤ (c : ℚ)) := by
  have h1 : PyF.pabs (PyF.psub (.fin v) (fI m))
      = .fin (Q0.qabs (Q0.qsub v (Q0.ofInt m))) := rfl
  rw [h1, fI, ple_fin_eq (Q0.den_qabs (Q0.den_qsub hd (Q0.den_ofInt_pos m)))
    (Q0.den_ofInt_pos c), Q0.toQ_qabs _ (Q0.den_qsub hd (Q0.den_ofInt_pos m)),
    Q0.toQ_qsub hd (Q0.den_ofInt_pos m), Q0.toQ_ofInt, Q0.toQ_ofInt]

theorem cond_lt_left (m : ℤ) (v : Q0) (hd : 0 < v.den) :
    PyF.plt (fI m) (.fin v) = decide ((m : ℚ) < v.toQ) := by
  rw [fI, plt_fin_eq (Q0.den_ofInt_pos m) hd, Q0.toQ_ofInt]

theorem cond_lt_right (v : Q0) (hd : 0 < v.den) (m : ℤ) :
    PyF.plt (.fin v) (fI m) = decide (v.toQ < (m : ℚ)) := by
  rw [fI, plt_fin_eq hd (Q0.den_ofInt_pos m), Q0.toQ_ofInt]

theorem cond_le_right (v : Q0) (hd : 0 < v.den) (m : ℤ) :
    PyF.ple (.fin v) (fI m) = decide (v.toQ ≤ (m : ℚ)) := by
  rw [fI, ple_fin_eq hd (Q0.den_ofInt_pos m), Q0.toQ_ofInt]

theorem cond_le_left (m : ℤ) (v : Q0) (hd : 0 < v.den) :
    PyF.ple (fI m) (.fin v) = decide ((m : ℚ) ≤ v.toQ) := by
  rw [fI, ple_fin_eq (Q0.den_ofInt_pos m) hd, Q0.toQ_ofInt]

theorem cond_le_mk (v : Q0) (hd : 0 < v.den) (x y : ℤ) (hy : 0 < y) :
    PyF.ple (.fin v) (.fin ⟨x, y⟩) = decide (v.toQ ≤ (x : ℚ) / (y : ℚ)) := by
  rw [ple_fin_eq hd hy]
  simp [Q0.toQ]

/-- `get_guideline_range` in terms of the denoted old duration. -/
theorem get_guideline_range_eval (v : Q0) (hd : 0 < v.den) :
    get_guideline_range (.fin v) = if v.toQ < 120 then (fI 10, fI 20) else (fI 5, fI 10) := by
  rw [get_guideline_range, cond_lt_right v hd 120]
  norm_num

set_option maxHeartbeats 3200000 in
/-- Full symbolic evaluation of `grade_maisie_q2` when both answers parse
to finite values, the old one nonzero and strictly below the new one: the
result exists (no exception), its correctness verdict is "increase within
[min, max + 0.5] of the consulted guideline band", and its confidence is
"review" exactly on the two band-edge windows (width 2, computed from the
same band) together with the hard-coded window (20, 23]. -/
theorem grade_maisie_q2_eval (a p : String) (vo vn : Q0)
    (hp : parse_duration p = some (.fin vo)) (ha : parse_duration a = some (.fin vn))
    (hdo : 0 < vo.den) (hdn : 0 < vn.den)
    (h0 : vo.toQ ≠ 0) (hlt : vo.toQ < vn.toQ) :
    ∃ r, grade_maisie_q2 a p = some r ∧
      (r.is_correct = true ↔
        ((if vo.toQ < 120 then (10 : ℚ) else 5) ≤ (vn.toQ - vo.toQ) / vo.toQ * 100 ∧
          (vn.toQ - vo.toQ) / vo.toQ * 100 ≤ (if vo.toQ < 120 then (20 : ℚ) else 10) + 1 / 2)) ∧
      (r.confidence = "review" ↔
        (|(vn.toQ - vo.toQ) / vo.toQ * 100 - (if vo.toQ < 120 then (10 : ℚ) else 5)| ≤ 2 ∨
         |(vn.toQ - vo.toQ) / vo.toQ * 100 - (if vo.toQ < 120 then (20 : ℚ) else 10)| ≤ 2 ∨
         (20 < (vn.toQ - vo.toQ) / vo.toQ * 100 ∧ (vn.toQ - vo.toQ) / vo.toQ * 100 ≤ 23))) ∧
      (r.confidence = "review" ∨ r.confidence = "high") := by
  have hnum0 : vo.num ≠ 0 := by
    intro hh
    exact h0 (by rw [Q0.toQ, hh]; simp)
  have hzero : Q0.isZero vo = false := by
    simp [Q0.isZero, hnum0]
  have hple : PyF.ple (.fin vn) (.fin vo) = false := by
    rw [ple_fin_eq hdn hdo]
    simp [not_le.mpr hlt]
  have hinc : calculate_percentage_increase (.fin vo) (.fin vn)
      = .fin (Q0.qmul (Q0.qdiv (Q0.qsub vn vo) vo) (Q0.ofInt 100)) := by
    rw [calculate_percentage_increase, if_neg]
    · show PyF.pmul (PyF.pdiv (.fin (Q0.qsub vn vo)) (.fin vo)) (fI 100) = _
      rw [PyF.pdiv, if_neg (by simp [hzero])]
      rfl
    · simp [PyF.peq, fI, Q0.qeq, Q0.ofInt, hnum0]
  set inc : Q0 := Q0.qmul (Q0.qdiv (Q0.qsub vn vo) vo) (Q0.ofInt 100) with hincdef
  have hdinc : 0 < inc.den :=
    Q0.den_qmul (Q0.den_qdiv (Q0.den_qsub hdn hdo) hnum0) (Q0.den_ofInt_pos _)
  have hq : inc.toQ = (vn.toQ - vo.toQ) / vo.toQ * 100 := by
    rw [hincdef, Q0.toQ_qmul, Q0.toQ_qdiv, Q0.toQ_qsub hdn hdo, Q0.toQ_ofInt]
    norm_num
  have hpadd205 : PyF.padd (fI 20) (fQ 1 2) = .fin ⟨41, 2⟩ := rfl
  have hpadd105 : PyF.padd (fI 10) (fQ 1 2) = .fin ⟨21, 2⟩ := rfl
  have hrange := get_guideline_range_eval vo hdo
  simp only [grade_maisie_q2, ha, hp, hple, hinc, hrange, format_duration, Bool.false_eq_true,
    if_false]
  by_cases hc : vo.toQ < 120
  · simp only [if_pos hc, hq,
      cond_abs_le inc hdinc 10 2, cond_abs_le inc hdinc 20 2,
      cond_lt_left 20 inc hdinc, cond_le_right inc hdinc 23,
      cond_lt_right inc hdinc 10, hpadd205, cond_le_mk inc hdinc 41 2 (by norm_num),
      cond_le_right inc hdinc 25, hq]
    rw [hq] at *
    set q := (vn.toQ - vo.toQ) / vo.toQ * 100 with hqd
    push_cast
    split_ifs <;>
      refine ⟨_, rfl, ?_, ?_, by simp [GRfull]⟩ <;>
      (try simp_all [GRfull]) <;>
      (try linarith) <;>
      (try tauto) <;>
      (try constructor <;> linarith)
  · simp only [if_neg hc, hq,
      cond_abs_le inc hdinc 5 2, cond_abs_le inc hdinc 10 2,
      cond_lt_left 20 inc hdinc, cond_le_right inc hdinc 23,
      cond_lt_right inc hdinc 5, hpadd105, cond_le_mk inc hdinc 21 2 (by norm_num),
      cond_le_right inc hdinc 25, hq]
    rw [hq] at *
    set q := (vn.toQ - vo.toQ) / vo.toQ * 100 with hqd
    push_cast
    split_ifs <;>
      refine ⟨_, rfl, ?_, ?_, by simp [GRfull]⟩ <;>
      (try simp_all [GRfull]) <;>
      (try linarith) <;>
      (try tauto) <;>
      (try constructor <;> linarith)

set_option maxHeartbeats 3200000 in
/-- Symbolic evaluation of `grade_oliver_q10`'s verdict under the same
hypotheses: its pass band is the hard-coded interval [4, 10.5], not a
band consulted from `get_guideline_range`. -/
theorem grade_oliver_q10_eval (a p : String) (vo vn : Q0)
    (hp : parse_duration p = some (.fin vo)) (ha : parse_duration a = some (.fin vn))
    (hdo : 0 < vo.den) (hdn : 0 < vn.den)
    (h0 : vo.toQ ≠ 0) (hlt : vo.toQ < vn.toQ) :
    ∃ r, grade_oliver_q10 a p = some r ∧
      (r.is_correct = true ↔
        ((4 : ℚ) ≤ (vn.toQ - vo.toQ) / vo.toQ * 100 ∧
          (vn.toQ - vo.toQ) / vo.toQ * 100 ≤ 21 / 2)) := by
  have hnum0 : vo.num ≠ 0 := by
    intro hh
    exact h0 (by rw [Q0.toQ, hh]; simp)
  have hzero : Q0.isZero vo = false := by
    simp [Q0.isZero, hnum0]
  have hple : PyF.ple (.fin vn) (.fin vo) = false := by
    rw [ple_fin_eq hdn hdo]
    simp [not_le.mpr hlt]
  have hinc : calculate_percentage_increase (.fin vo) (.fin vn)
      = .fin (Q0.qmul (Q0.qdiv (Q0.qsub vn vo) vo) (Q0.ofInt 100)) := by
    rw [calculate_percentage_increase, if_neg]
    · show PyF.pmul (PyF.pdiv (.fin (Q0.qsub vn vo)) (.fin vo)) (fI 100) = _
      rw [PyF.pdiv, if_neg (by simp [hzero])]
      rfl
    · simp [PyF.peq, fI, Q0.qeq, Q0.ofInt, hnum0]
  set inc : Q0 := Q0.qmul (Q0.qdiv (Q0.qsub vn vo) vo) (Q0.ofInt 100) with hincdef
  have hdinc : 0 < inc.den :=
    Q0.den_qmul (Q0.den_qdiv (Q0.den_qsub hdn hdo) hnum0) (Q0.den_ofInt_pos _)
  have hq : inc.toQ = (vn.toQ - vo.toQ) / vo.toQ * 100 := by
    rw [hincdef, Q0.toQ_qmul, Q0.toQ_qdiv, Q0.toQ_qsub hdn hdo, Q0.toQ_ofInt]
    norm_num
  simp only [grade_oliver_q10, ha, hp, hple, hinc, format_duration, Bool.false_eq_true,
    if_false]
  simp only [fQ, cond_abs_le inc hdinc 5 2, cond_abs_le inc hdinc 10 2,
    cond_lt_left 10 inc hdinc, cond_le_right inc hdinc 13,
    cond_lt_right inc hdinc 4, cond_le_mk inc hdinc 21 2 (by norm_num),
    cond_le_right inc hdinc 15, hq]
  set q := (vn.toQ - vo.toQ) / vo.toQ * 100 with hqd
  push_cast
  split_ifs <;>
    refine ⟨_, rfl, ?_⟩ <;>
    (try simp_all [GRfull]) <;>
    (try linarith) <;>
    (try constructor <;> linarith)

/-- Every branch of `grade_bella_q13b` carries the default confidence:
the count grader never flags `review`, not even at a band boundary. -/
theorem grade_bella_q13b_conf (b pb : String) :
    (grade_bella_q13b b pb).confidence = "high" := by
  rcases hpd : parse_duration pb with _ | v <;>
    simp only [grade_bella_q13b, hpd] <;>
    split <;>
    first
      | rfl
      | (split_ifs <;> rfl)

/-! ## C5 — boundary confidence flagging (corrected) -/

/-- C5 counterexample: `grade_maisie_q2` with old duration 180 s and new
219.6 s computes a 22% increase — more than 2 points from both edges of
the consulted (5, 10) band — yet tags it `review` (the hard-coded
(20, 23] window); and `grade_bella_q13b` grades "7" after a 120-second
target exactly at the band boundary (range (4, 7): "7" correct, "8"
incorrect) with confidence `high`, never `review`. -/
theorem C5_counterexample :
    (∃ v, calculate_percentage_increase (fI 180) (fQ 2196 10) = .fin v ∧ v.toQ = 22) ∧
    get_guideline_range (fI 180) = (fI 5, fI 10) ∧
    parse_duration "180" = some (fI 180) ∧
    parse_duration "219.6" = some (fQ 2196 10) ∧
    (grade_maisie_q2 "219.6" "180").map (fun r => (r.is_correct, r.confidence))
      = some (false, "review") ∧
    get_warmup_range (fI 120) = (4, 7) ∧
    (grade_bella_q13b "7" "120").is_correct = true ∧
    (grade_bella_q13b "7" "120").confidence = "high" ∧
    (grade_bella_q13b "8" "120").is_correct = false :=
  ⟨⟨⟨39600, 1800⟩, by decide, by norm_num [Q0.toQ]⟩, by decide, by decide, by decide,
    by decide, by decide, by decide, by decide, by decide⟩

/-- C5 (amended): in `grade_maisie_q2` the band-edge review windows are
computed from the same `get_guideline_range` constants as the correctness
decision (within 2 points of either edge), but a third, hard-coded window
(20, 23] also forces `review` regardless of the band in use; and the
count-classifying grader `grade_bella_q13b` never tags `review` — every
result, boundary values included, has confidence `high`. -/
theorem C5_amended (a p : String) (vo vn : Q0)
    (hp : parse_duration p = some (.fin vo)) (ha : parse_duration a = some (.fin vn))
    (hdo : 0 < vo.den) (hdn : 0 < vn.den)
    (h0 : vo.toQ ≠ 0) (hlt : vo.toQ < vn.toQ) :
    (∃ r, grade_maisie_q2 a p = some r ∧
      (∀ m M : Q0, get_guideline_range (.fin vo) = (.fin m, .fin M) →
        (r.confidence = "review" ↔
          (|(vn.toQ - vo.toQ) / vo.toQ * 100 - m.toQ| ≤ 2 ∨
           |(vn.toQ - vo.toQ) / vo.toQ * 100 - M.toQ| ≤ 2 ∨
           (20 < (vn.toQ - vo.toQ) / vo.toQ * 100 ∧
             (vn.toQ - vo.toQ) / vo.toQ * 100 ≤ 23)))) ∧
      (r.confidence = "review" ∨ r.confidence = "high")) ∧
    (∀ b pb : String, (grade_bella_q13b b pb).confidence = "high") := by
  obtain ⟨r, hr, _, hconf, hrh⟩ := grade_maisie_q2_eval a p vo vn hp ha hdo hdn h0 hlt
  refine ⟨⟨r, hr, ?_, hrh⟩, grade_bella_q13b_conf⟩
  intro m M hmm
  rw [get_guideline_range_eval vo hdo] at hmm
  by_cases hc : vo.toQ < 120
  · rw [if_pos hc] at hmm
    have hm : m = Q0.ofInt 10 := by
      have := congrArg Prod.fst hmm
      simpa [fI] using this.symm
    have hM : M = Q0.ofInt 20 := by
      have := congrArg Prod.snd hmm
      simpa [fI] using this.symm
    rw [if_pos hc, if_pos hc] at hconf
    rw [hm, hM, Q0.toQ_ofInt, Q0.toQ_ofInt]
    convert hconf using 3 <;> norm_num
  · rw [if_neg hc] at hmm
    have hm : m = Q0.ofInt 5 := by
      have := congrArg Prod.fst hmm
      simpa [fI] using this.symm
    have hM : M = Q0.ofInt 10 := by
      have := congrArg Prod.snd hmm
      simpa [fI] using this.symm
    rw [if_neg hc, if_neg hc] at hconf
    rw [hm, hM, Q0.toQ_ofInt, Q0.toQ_ofInt]
    convert hconf using 3 <;> norm_num

/-- Witness for C5 (amended) at old "60", new "72". -/
theorem C5_amended_witness :
    (grade_bella_q13b "7" "2 minutes").confidence = "high" :=
  (C5_amended "72" "60" ⟨60, 1⟩ ⟨72, 1⟩ (by decide) (by decide) (by norm_num)
    (by norm_num) (by norm_num [Q0.toQ]) (by norm_num [Q0.toQ])).2 "7" "2 minutes"

/-! ## C6 — percentage guideline lookup (corrected) -/

/-- C6 counterexample: a 20% increase over a 60-second Plan 1 duration
lies inside the (10, 20) band that `get_guideline_range` prescribes for
durations under 2 minutes, and `grade_maisie_q2` (which consults the
rule) passes it — but `grade_oliver_q10`, also a judged-percentage-increase
grader, fails the very same pair of answers: it does not consult the
rule. -/
theorem C6_counterexample :
    get_guideline_range (fI 60) = (fI 10, fI 20) ∧
    parse_duration "60" = some (fI 60) ∧
    parse_duration "72" = some (fI 72) ∧
    (∃ v, calculate_percentage_increase (fI 60) (fI 72) = .fin v ∧ v.toQ = 20) ∧
    (grade_maisie_q2 "72" "60").map (fun r => r.is_correct) = some true ∧
    (grade_oliver_q10 "72" "60").map (fun r => r.is_correct) = some false :=
  ⟨by decide, by decide, by decide, ⟨⟨1200, 60⟩, by decide, by norm_num [Q0.toQ]⟩,
    by decide, by decide⟩

/-- C6 (amended): `get_guideline_range` returns (10, 20) when the old
duration is under 120 seconds and (5, 10) otherwise, and `grade_maisie_q2`
consults it (its pass band is [min, max + 0.5] for the returned pair) —
but not every percentage grader does: `grade_oliver_q10`'s pass band is
the hard-coded [4, 10.5] whatever the old duration's magnitude. -/
theorem C6_amended (a p : String) (vo vn : Q0)
    (hp : parse_duration p = some (.fin vo)) (ha : parse_duration a = some (.fin vn))
    (hdo : 0 < vo.den) (hdn : 0 < vn.den)
    (h0 : vo.toQ ≠ 0) (hlt : vo.toQ < vn.toQ) :
    (∀ d : ℚ, get_guideline_range (.fin (Q0.ofQ d))
      = if d < 120 then (fI 10, fI 20) else (fI 5, fI 10)) ∧
    (∃ r, grade_maisie_q2 a p = some r ∧
      (∀ m M : Q0, get_guideline_range (.fin vo) = (.fin m, .fin M) →
        (r.is_correct = true ↔
          (m.toQ ≤ (vn.toQ - vo.toQ) / vo.toQ * 100 ∧
            (vn.toQ - vo.toQ) / vo.toQ * 100 ≤ M.toQ + 1 / 2)))) ∧
    (∃ r, grade_oliver_q10 a p = some r ∧
      (r.is_correct = true ↔
        ((4 : ℚ) ≤ (vn.toQ - vo.toQ) / vo.toQ * 100 ∧
          (vn.toQ - vo.toQ) / vo.toQ * 100 ≤ 21 / 2))) := by
  obtain ⟨r, hr, hcor, _, _⟩ := grade_maisie_q2_eval a p vo vn hp ha hdo hdn h0 hlt
  refine ⟨?_, ⟨r, hr, ?_⟩, grade_oliver_q10_eval a p vo vn hp ha hdo hdn h0 hlt⟩
  · intro d
    rw [get_guideline_range_eval _ (Q0.den_ofQ_pos d), Q0.toQ_ofQ]
  · intro m M hmm
    rw [get_guideline_range_eval vo hdo] at hmm
    by_cases hc : vo.toQ < 120
    · rw [if_pos hc] at hmm
      have hm : m = Q0.ofInt 10 := by
        have := congrArg Prod.fst hmm
        simpa [fI] using this.symm
      have hM : M = Q0.ofInt 20 := by
        have := congrArg Prod.snd hmm
        simpa [fI] using this.symm
      rw [if_pos hc, if_pos hc] at hcor
      rw [hm, hM, Q0.toQ_ofInt, Q0.toQ_ofInt]
      convert hcor using 3 <;> norm_num
    · rw [if_neg hc] at hmm
      have hm : m = Q0.ofInt 5 := by
        have := congrArg Prod.fst hmm
        simpa [fI] using this.symm
      have hM : M = Q0.ofInt 10 := by
        have := congrArg Prod.snd hmm
        simpa [fI] using this.symm
      rw [if_neg hc, if_neg hc] at hcor
      rw [hm, hM, Q0.toQ_ofInt, Q0.toQ_ofInt]
      convert hcor using 3 <;> norm_num

/-- Witness for C6 (amended) at old "60", new "72". -/
theorem C6_amended_witness :
    get_guideline_range (.fin (Q0.ofQ 60))
      = if (60 : ℚ) < 120 then (fI 10, fI 20) else (fI 5, fI 10) :=
  (C6_amended "72" "60" ⟨60, 1⟩ ⟨72, 1⟩ (by decide) (by decide) (by norm_num)
    (by norm_num) (by norm_num [Q0.toQ]) (by norm_num [Q0.toQ])).1 60

/-! ## C3 — parse-failure handling of the graders -/

/-- C3 counterexample: the answer "hello" is unparseable and contains no
alternative-protocol keyword, yet the claimed "marked incorrect and
requests a valid value" fails on both halves of the claim's scope.
Current answer unparseable: `grade_minna_q5` marks "hello" correct (its
DIAB-praise branch).  Required prior unparseable: `grade_minna_q7` (Plan-2
prior "hello", answer "5"), `grade_oliver_q11` (Plan-2 prior "hello",
drop back to "100") and `grade_bella_q13b` (duration prior "hello",
warmup answer "5") all return correct results, because `parse_duration`
returns the same `None` for a parse failure as for the alternative
protocol, and the graders' `None`-priors take leniency or default-range
branches instead of a parse-failure path. -/
theorem C3_counterexample :
    parse_duration "hello" = none ∧
    containsSub (pyLowerStrip "hello") "door".data = false ∧
    containsSub (pyLowerStrip "hello") "diab".data = false ∧
    (grade_minna_q5 "hello").is_correct = true ∧
    (grade_minna_q5 "hello").feedback =
      "Spot on selecting DIAB! Minna was showing anxiety before her owner got out the door." ∧
    (∃ r, grade_minna_q7 "5" "hello" = some r ∧ r.is_correct = true) ∧
    (∃ r, grade_oliver_q11 "100" "100" "hello" = some r ∧ r.is_correct = true) ∧
    (grade_bella_q13b "5" "hello").is_correct = true :=
  ⟨by decide, by decide, by decide, by decide, by decide,
    ⟨GRconf true "Nice increase from DIAB to Plan 3. For this assignment, we were assuming Minna completed DIAB in Plan 1." "review", by decide, rfl⟩,
    ⟨GRconf true "Excellent job dropping back to the target duration from the last successful exercise when Oliver struggled! This is the rule of thumb for a first drop." "high", by decide, rfl⟩,
    by decide⟩

set_option maxRecDepth 16000 in
/-- C3 (amended): every duration- or count-reading grader returns normally
with a well-formed GradeResult on an unparseable relevant answer, but the
outcome is not uniformly "incorrect, requesting a valid value".  On an
unparseable current answer most graders mark it incorrect (the chained
duration graders and the warmup-count graders q13b/q14b/q15b/q17
requesting a valid value, q1/q9/q13 with coaching feedback), while
`grade_minna_q5` marks it correct and `grade_minna_q6` marks it correct
when the Plan-1 answer is also unparseable.  On an unparseable required
prior, `grade_maisie_q2/q3`, `grade_oliver_q10` and `grade_bella_q14/q15`
do return incorrect requests, but `grade_minna_q6/q7` switch to a
DIAB-assumed leniency branch, `grade_oliver_q11` falls back to the Plan-1
prior, and `grade_bella_q13b/q14b/q15b` substitute default warmup
baselines ((4,7), 7, 0), each of which can mark the current answer
correct. -/
theorem C3_amended (s t p ps w : String)
    (hs : parse_duration s = none)
    (hw1 : findFirstNat w.data = none)
    (hw2 : containsSub (pyLowerStrip w) "none".data = false)
    (hw3 : pyLowerStrip w ≠ ['0'])
    (hw4 : containsSub (pyLowerStrip w) "one".data = false)
    (hw5 : containsSub (pyLowerStrip w) "a rep".data = false)
    (hw6 : containsSub (pyLowerStrip w) "couple".data = false) :
    grade_maisie_q2 s p = some (GR false "Please provide a target duration for this plan.") ∧
    grade_maisie_q3 s p = some (GR false "Please provide a target duration for this plan.") ∧
    grade_oliver_q10 s p = some (GR false "Please provide a target duration for this plan.") ∧
    grade_bella_q14 s p = some (GR false "Please provide a target duration for this plan.") ∧
    grade_bella_q15 s p = some (GR false "Please provide a target duration for this plan.") ∧
    grade_oliver_q11 s p ps = some (GR false "Oliver struggled with Plan 2 but doesn't need DIAB. Please provide a target duration.") ∧
    (∃ r, grade_minna_q7 s p = some r ∧ r.is_correct = false) ∧
    (grade_maisie_q1 s).is_correct = false ∧
    (grade_oliver_q9 s).is_correct = false ∧
    (grade_bella_q13 s).is_correct = false ∧
    (parse_duration p ≠ none →
      grade_minna_q6 s p = some (GR false "Please provide a target duration for Plan 2.")) ∧
    (parse_duration p = none → ∃ r, grade_minna_q6 s p = some r ∧ r.is_correct = true) ∧
    (grade_minna_q5 s).is_correct = true ∧
    grade_bella_q13b w p = GR false "Please provide a number of warmup steps." ∧
    grade_bella_q14b w p = GR false "Please provide a number of warmup steps." ∧
    grade_bella_q15b w p = GR false "Please provide a number of warmup steps." ∧
    grade_diab_q17 w = GR false "Please specify how many repetitions." ∧
    (parse_duration p = none →
      grade_maisie_q2 t p = some (GR false "Please provide a target duration for this plan.")) ∧
    (parse_duration p = none →
      grade_maisie_q3 t p = some (GR false "Please provide a target duration for this plan.")) ∧
    (parse_duration p = none →
      grade_oliver_q10 t p = some (GR false "Please provide a target duration for this plan.")) ∧
    (parse_duration p = none →
      grade_bella_q14 t p = some (GR false "Please provide a target duration for this plan.")) ∧
    (parse_duration p = none →
      grade_bella_q15 t p = some (GR false "Please provide a target duration for this plan.")) ∧
    grade_minna_q6 "5" s = some (GRconf true "Nice progression of increases following DIAB! There is some trainer's choice once the dog has been able to do 1 sec with the owner outside the door in DIAB." "high") ∧
    grade_minna_q7 "5" s = some (GRconf true "Nice increase from DIAB to Plan 3. For this assignment, we were assuming Minna completed DIAB in Plan 1." "review") ∧
    grade_oliver_q11 "100" "100" s = some (GRconf true "Excellent job dropping back to the target duration from the last successful exercise when Oliver struggled! This is the rule of thumb for a first drop." "high") ∧
    grade_bella_q13b "5" s = GR true "Good job following the warmup guidelines for a target duration between 1 and 5 minutes." ∧
    grade_bella_q14b "5" w = GR true "Nice job testing out fewer warmups with Bella and keeping them reduced since it helped!" ∧
    grade_bella_q15b "0" w = GR true "Good job keeping the warmup steps consistent with Plan 2. This stability in the warmup routine can be beneficial for Bella's progress." ∧
    grade_diab_q17 "a couple" = GR true "Excellent! We would only need to do a couple repetitions to warmup the dog." := by
  refine ⟨?_, ?_, ?_, ?_, ?_, ?_, ?_, ?_, ?_, ?_, ?_, ?_, ?_, ?_, ?_, ?_, ?_, ?_, ?_, ?_,
    ?_, ?_, ?_, ?_, ?_, ?_, ?_, ?_, ?_⟩
  · rcases hp : parse_duration p with _ | v <;> simp [grade_maisie_q2, hs, hp]
  · rcases hp : parse_duration p with _ | v <;> simp [grade_maisie_q3, hs, hp]
  · rcases hp : parse_duration p with _ | v <;> simp [grade_oliver_q10, hs, hp]
  · rcases hp : parse_duration p with _ | v <;> simp [grade_bella_q14, hs, hp]
  · rcases hp : parse_duration p with _ | v <;> simp [grade_bella_q15, hs, hp]
  · simp [grade_oliver_q11, hs]
  · rcases hp : parse_duration p with _ | v
    · exact ⟨GRconf false "This is too big of a jump after DIAB." "high",
        by simp [grade_minna_q7, hs, hp, optCmp, PyF.truthy], rfl⟩
    · exact ⟨GR false "Minna doesn't need DIAB at this point. Please provide a target duration.",
        by simp [grade_minna_q7, hs, hp], rfl⟩
  · simp [grade_maisie_q1, hs, GR]
  · simp [grade_oliver_q9, hs, GR]
  · simp [grade_bella_q13, hs, GR]
  · intro hp
    rcases hpv : parse_duration p with _ | v
    · exact absurd hpv hp
    · simp [grade_minna_q6, hs, hpv]
  · intro hp
    exact ⟨GR true "For this assignment, we were assuming Minna completed DIAB in Plan 1 (repeating step 10 up to 5 seconds outside the door). You didn't need to choose DIAB for Plan 2, as that would be overly conservative, but it's acceptable.",
      by simp [grade_minna_q6, hs, hp], rfl⟩
  · simp [grade_minna_q5, hs, GR]
  · simp [grade_bella_q13b, hw1, hw2, hw3]
  · simp [grade_bella_q14b, hw1, hw2, hw3]
  · simp [grade_bella_q15b, hw1, hw2, hw3]
  · simp [grade_diab_q17, hw1, hw4, hw5, hw6]
  · intro hp
    rcases ht : parse_duration t with _ | v <;> simp [grade_maisie_q2, hp, ht]
  · intro hp
    rcases ht : parse_duration t with _ | v <;> simp [grade_maisie_q3, hp, ht]
  · intro hp
    rcases ht : parse_duration t with _ | v <;> simp [grade_oliver_q10, hp, ht]
  · intro hp
    rcases ht : parse_duration t with _ | v <;> simp [grade_bella_q14, hp, ht]
  · intro hp
    rcases ht : parse_duration t with _ | v <;> simp [grade_bella_q15, hp, ht]
  · simp only [grade_minna_q6, hs]
    decide
  · simp only [grade_minna_q7, hs]
    decide
  · simp only [grade_oliver_q11, hs]
    decide
  · simp only [grade_bella_q13b, hs]
    decide
  · simp only [grade_bella_q14b, hw1]
    simp [hw2, hw3]
    decide
  · simp only [grade_bella_q15b, hw1]
    simp [hw2, hw3]
    decide
  · decide

/-- Witness for C3 (amended) at the unparseable duration "hello",
arbitrary current answer "42", prior "10", Plan-1 prior "12" and
unparseable warmup-count answer "xyzzy". -/
theorem C3_amended_witness :
    parse_duration "hello" = none ∧
    grade_maisie_q2 "hello" "10" =
      some (GR false "Please provide a target duration for this plan.") :=
  ⟨by decide,
    (C3_amended "hello" "42" "10" "12" "xyzzy" (by decide) (by decide) (by decide)
      (by decide) (by decide) (by decide) (by decide)).1⟩

/-! ## C4 — parse_duration's result shape -/

/-- C4 counterexample: `parse_duration` returns the same value (`None`) for
the keyword answer "door 10" as for unparseable text, so the special-case
marker is not a distinguished value; and it can return a negative number
("-5" parses to -5 seconds). -/
theorem C4_counterexample :
    parse_duration "door 10" = none ∧
    parse_duration "xyzzy" = none ∧
    parse_duration "-5" = some (fI (-5)) :=
  ⟨by decide, by decide, by decide⟩

/-- C4 (amended): `parse_duration` returns either a numeric seconds value
(which can be negative, e.g. for "-5") or `None`; any text containing an
alternative-protocol keyword (door/diab) returns `None` before any number
parsing, regardless of numbers present, and unparseable text returns the
same `None` — callers cannot distinguish the two cases from the value. -/
theorem C4_amended (s : String)
    (hk : containsSub (lowerL (trimWs s.data)) "door".data = true ∨
      containsSub (lowerL (trimWs s.data)) "diab".data = true) :
    parse_duration s = none ∧
    parse_duration "-5" = some (fI (-5)) ∧
    parse_duration "xjqk" = none := by
  refine ⟨?_, by decide, by decide⟩
  simp only [parse_duration, parseDurCore]
  rcases hk with h | h <;> simp [h]

/-- Witness for C4 (amended) at the keyword answer "Door". -/
theorem C4_amended_witness :
    containsSub (lowerL (trimWs "Door".data)) "door".data = true ∧
    parse_duration "Door" = none :=
  ⟨by decide, (C4_amended "Door" (Or.inl (by decide))).1⟩

/-! ## C10 — zero prior duration -/

/-- C10 counterexample: with a prior answer parsing to 0 seconds and a
strictly larger new answer, not every relative-increase grader returns an
incorrect "too conservative" result: `grade_minna_q7`'s short-duration
leniency branch (old duration at most 6 seconds, new at most 8) marks
"5" after prior "0" correct. -/
theorem C10_counterexample :
    parse_duration "0" = some (fI 0) ∧
    parse_duration "5" = some (fI 5) ∧
    (grade_minna_q7 "5" "0").map (fun r => (r.is_correct, r.feedback)) =
      some (true, "Nice job selecting an appropriate increase for Plan 3. For such short durations, small absolute increases are appropriate.") :=
  ⟨by decide, by decide, by decide⟩

/-- C10 (amended): `calculate_percentage_increase` with a zero old value
returns 0 instead of raising a division-by-zero error, for every new
value; consequently, with a prior answer parsing to 0 seconds and any
strictly larger new answer, the Maisie/Oliver/Bella percentage graders
return normally with an incorrect result at 0% (below every guideline
band) — but the Minna graders' short-duration branches can instead mark
such an answer correct. -/
theorem C10_amended (x : PyF) (a p : String) (vo vn : Q0)
    (hp : parse_duration p = some (.fin vo)) (hvo : vo.toQ = 0) (hdo : 0 < vo.den)
    (ha : parse_duration a = some (.fin vn)) (hvn : 0 < vn.toQ) (hdn : 0 < vn.den) :
    calculate_percentage_increase (.fin vo) x = fI 0 ∧
    (grade_maisie_q2 a p).map (fun r => (r.is_correct, r.feedback, r.confidence)) =
      some (false, "Maisie would have been okay to push by the normal guidelines for under 2 minutes of 10-20%. This increase of 0.0% is a bit conservative.", "high") ∧
    (grade_oliver_q10 a p).map (fun r => (r.is_correct, r.confidence)) =
      some (false, "high") ∧
    (grade_bella_q14 a p).map (fun r => (r.is_correct, r.confidence)) =
      some (false, "high") := by
  have hnum : vo.num = 0 := by
    rw [Q0.toQ, div_eq_zero_iff] at hvo
    rcases hvo with h | h
    · exact_mod_cast h
    · exact absurd h (ne_of_gt (Q0.denQ_pos hdo))
  have hpos : 0 < vn.num := by
    rw [Q0.toQ, lt_div_iff₀ (Q0.denQ_pos hdn), zero_mul] at hvn
    exact_mod_cast hvn
  have hguard : PyF.peq (.fin vo) (fI 0) = true := by
    simp [PyF.peq, fI, Q0.qeq, Q0.ofInt, hnum]
  have hcalc : ∀ y, calculate_percentage_increase (.fin vo) y = fI 0 := by
    intro y
    rw [calculate_percentage_increase, if_pos hguard]
  have hple : PyF.ple (.fin vn) (.fin vo) = false := by
    simp only [PyF.ple, Q0.qle, hnum, zero_mul, decide_eq_false_iff_not, not_le]
    positivity
  have hplt : PyF.plt (.fin vn) (.fin vo) = false := by
    simp only [PyF.plt, Q0.qlt, hnum, zero_mul, decide_eq_false_iff_not, not_lt]
    positivity
  have hpeqn : PyF.peq (.fin vn) (.fin vo) = false := by
    simp only [PyF.peq, Q0.qeq, hnum, zero_mul, decide_eq_false_iff_not]
    positivity
  have hrange : get_guideline_range (.fin vo) = (fI 10, fI 20) := by
    rw [get_guideline_range, if_pos]
    simp only [PyF.plt, fI, Q0.qlt, Q0.ofInt, hnum, zero_mul, mul_one, decide_eq_true_eq]
    positivity
  have hfmt : fmtFin vo = "0 seconds".data := by
    rw [fmtFin, if_pos]
    · rw [Q0.qtrunc, hnum, Int.zero_tdiv]
      rfl
    · simp only [Q0.qlt, Q0.ofInt, hnum, zero_mul, mul_one, decide_eq_true_eq]
      positivity
  refine ⟨hcalc x, ?_, ?_, ?_⟩
  · simp only [grade_maisie_q2, ha, hp, hple, hcalc, hrange, format_duration]
    rw [if_neg (by decide), if_pos (by decide)]
    simp only [Option.map_some', GRfull]
    decide
  · simp only [grade_oliver_q10, ha, hp, hple, hcalc, format_duration]
    rw [if_neg (by decide), if_pos (by decide)]
    simp only [Option.map_some', GRfull]
    decide
  · simp only [grade_bella_q14, ha, hp, hplt, hpeqn, hcalc, hrange, format_duration]
    rw [if_neg (by decide), if_neg (by decide), if_pos (by decide)]
    simp only [Option.map_some', GRfull]
    decide

/-- Witness for C10 (amended) at prior "0", new answer "5", and NaN as the
arbitrary other argument. -/
theorem C10_amended_witness :
    parse_duration "0" = some (.fin ⟨0, 1⟩) ∧
    calculate_percentage_increase (.fin (⟨0, 1⟩ : Q0)) PyF.nan = fI 0 :=
  ⟨by decide,
    (C10_amended PyF.nan "5" "0" ⟨0, 1⟩ ⟨5, 1⟩ (by decide) (by norm_num [Q0.toQ])
      (by norm_num) (by decide) (by norm_num [Q0.toQ]) (by norm_num)).1⟩

/-! ## C8 — parser round-trip on the canonical formatter output

The strings `format_duration` produces are of one of three shapes:
`"<digits> seconds"`, `"<digits> minute(s)"`, or `"<digits>:<2 digits>"`.
The lemmas below characterise each stage of `parse_duration` on these
shapes with a symbolic digit block. -/

theorem digit_isDigit {c : Char} (h : c ∈ digitChars) : c.isDigit = true := by
  fin_cases h <;> decide

theorem digit_toLower {c : Char} (h : c ∈ digitChars) : Char.toLower c = c := by
  fin_cases h <;> decide

theorem digit_not_ws {c : Char} (h : c ∈ digitChars) : isWs c = false := by
  fin_cases h <;> decide

theorem digit_ne_colon {c : Char} (h : c ∈ digitChars) : c ≠ ':' := by
  fin_cases h <;> decide

theorem ofNat_digit_mem {k : ℕ} (h : k < 10) : Char.ofNat (48 + k) ∈ digitChars := by
  interval_cases k <;> decide

theorem toNat_ofNat_digit {k : ℕ} (h : k < 10) : (Char.ofNat (48 + k)).toNat - 48 = k := by
  interval_cases k <;> decide

theorem natToCharsGo_mem : ∀ fuel n : ℕ, ∀ c ∈ natToCharsGo fuel n, c ∈ digitChars := by
  intro fuel
  induction fuel with
  | zero => intro n c hc; simp [natToCharsGo] at hc
  | succ fuel ih =>
    intro n c hc
    rw [natToCharsGo] at hc
    split at hc
    · rename_i hn
      simp only [List.mem_singleton] at hc
      subst hc
      exact ofNat_digit_mem hn
    · rcases List.mem_append.mp hc with h1 | h1
      · exact ih _ c h1
      · simp only [List.mem_singleton] at h1
        subst h1
        exact ofNat_digit_mem (Nat.mod_lt _ (by omega))

theorem natToCharsGo_ne_nil (fuel n : ℕ) (hf : 0 < fuel) : natToCharsGo fuel n ≠ [] := by
  cases fuel with
  | zero => omega
  | succ fuel => rw [natToCharsGo]; split <;> simp

theorem digitsVal_append_one (l : List Char) (c : Char) :
    digitsVal (l ++ [c]) = 10 * digitsVal l + (c.toNat - 48) := by
  simp [digitsVal, List.foldl_append]

theorem digitsVal_natToCharsGo : ∀ fuel n : ℕ, n < fuel →
    digitsVal (natToCharsGo fuel n) = n := by
  intro fuel
  induction fuel with
  | zero => intro n h; omega
  | succ fuel ih =>
    intro n h
    rw [natToCharsGo]
    split
    · rename_i hn
      show digitsVal [Char.ofNat (48 + n)] = n
      simp [digitsVal, toNat_ofNat_digit hn]
    · rename_i hn
      rw [digitsVal_append_one, ih (n / 10) (by omega),
        toNat_ofNat_digit (Nat.mod_lt _ (by omega))]
      omega

theorem natToChars_mem {n : ℕ} {c : Char} (h : c ∈ natToChars n) : c ∈ digitChars :=
  natToCharsGo_mem (n + 1) n c h

theorem natToChars_ne_nil (n : ℕ) : natToChars n ≠ [] :=
  natToCharsGo_ne_nil (n + 1) n (Nat.succ_pos n)

theorem digitsVal_natToChars (n : ℕ) : digitsVal (natToChars n) = n :=
  digitsVal_natToCharsGo (n + 1) n (Nat.lt_succ_self n)

theorem pad2_mem {n : ℕ} {c : Char} (h : c ∈ pad2 n) : c ∈ digitChars := by
  unfold pad2 at h
  split at h
  · rcases List.mem_cons.mp h with h1 | h1
    · subst h1; decide
    · exact natToChars_mem h1
  · exact natToChars_mem h

theorem pad2_ne_nil (n : ℕ) : pad2 n ≠ [] := by
  unfold pad2
  split
  · simp
  · exact natToChars_ne_nil n

theorem digitsVal_pad2 (n : ℕ) : digitsVal (pad2 n) = n := by
  unfold pad2
  split
  · show digitsVal ('0' :: natToChars n) = n
    have h0 : digitsVal ('0' :: natToChars n) = digitsVal (natToChars n) := rfl
    rw [h0, digitsVal_natToChars]
  · exact digitsVal_natToChars n

theorem head_all {l : List Char} {x : Char} (hx : l.head? = some x) {P : Char → Prop}
    (hP : P x) : ∀ c, l.head? = some c → P c := by
  intro c hc
  rw [hx] at hc
  injection hc with h
  exact h ▸ hP

theorem dropWhile_head_false {p : Char → Bool} {l : List Char}
    (h : ∀ c, l.head? = some c → p c = false) : l.dropWhile p = l := by
  cases l with
  | nil => rfl
  | cons c cs => rw [List.dropWhile_cons, h c rfl]; simp

theorem takeWhile_head_false {p : Char → Bool} {l : List Char}
    (h : ∀ c, l.head? = some c → p c = false) : l.takeWhile p = [] := by
  cases l with
  | nil => rfl
  | cons c cs => rw [List.takeWhile_cons, h c rfl]; simp

theorem span_append (p : Char → Bool) {a : List Char} (b : List Char)
    (ha : ∀ c ∈ a, p c = true) (hb : ∀ c, b.head? = some c → p c = false) :
    (a ++ b).takeWhile p = a ∧ (a ++ b).dropWhile p = b := by
  induction a with
  | nil =>
    rw [List.nil_append]
    exact ⟨takeWhile_head_false hb, dropWhile_head_false hb⟩
  | cons c cs ih =>
    have hc := ha c (List.mem_cons_self c cs)
    have ih' := ih fun x hx => ha x (List.mem_cons_of_mem c hx)
    constructor
    · rw [List.cons_append, List.takeWhile_cons, hc]
      simp [ih'.1]
    · rw [List.cons_append, List.dropWhile_cons, hc]
      simp [ih'.2]

theorem trim2_eq_self {p : Char → Bool} {l : List Char}
    (h1 : ∀ c, l.head? = some c → p c = false)
    (h2 : ∀ c, l.getLast? = some c → p c = false) :
    ((l.dropWhile p).reverse.dropWhile p).reverse = l := by
  rw [dropWhile_head_false h1,
    dropWhile_head_false (fun c hc => h2 c ((List.head?_reverse l) ▸ hc)),
    List.reverse_reverse]

theorem trimWs_eq_self {l : List Char}
    (h1 : ∀ c, l.head? = some c → isWs c = false)
    (h2 : ∀ c, l.getLast? = some c → isWs c = false) : trimWs l = l :=
  trim2_eq_self h1 h2

theorem trimChar_eq_self {x : Char} {l : List Char}
    (h1 : ∀ c, l.head? = some c → c ≠ x)
    (h2 : ∀ c, l.getLast? = some c → c ≠ x) : trimChar x l = l :=
  trim2_eq_self (fun c hc => decide_eq_false (h1 c hc))
    (fun c hc => decide_eq_false (h2 c hc))

theorem replaceGo_no_occ {h : Char} {t rep : List Char} :
    ∀ (fuel : ℕ) (l : List Char), h ∉ l → replaceGo (h :: t) rep fuel l = l := by
  intro fuel
  induction fuel with
  | zero => intro l _; rfl
  | succ fuel ih =>
    intro l hl
    cases l with
    | nil => rfl
    | cons c cs =>
      have hne : (h == c) = false := by
        simp only [beq_eq_false_iff_ne]
        intro he
        exact hl (he ▸ List.mem_cons_self c cs)
      have hpre : List.isPrefixOf (h :: t) (c :: cs) = false := by
        show (h == c && List.isPrefixOf t cs) = false
        rw [hne, Bool.false_and]
      rw [replaceGo, hpre]
      rw [if_neg (by decide)]
      exact congrArg _ (ih cs fun hm => hl (List.mem_cons_of_mem c hm))

theorem replaceL_no_occ {pat rep l : List Char} {h : Char} (hh : pat.head? = some h)
    (hl : h ∉ l) : replaceL pat rep l = l := by
  cases pat with
  | nil => simp at hh
  | cons h' t =>
    injection hh with h1
    subst h1
    exact replaceGo_no_occ l.length l hl

theorem collapseGo_no_p {p : Char → Bool} {r : Char} :
    ∀ (fuel : ℕ) (l : List Char), (∀ c ∈ l, p c = false) → collapseGo p r fuel l = l := by
  intro fuel
  induction fuel with
  | zero => intro l _; rfl
  | succ fuel ih =>
    intro l hl
    cases l with
    | nil => rfl
    | cons c cs =>
      rw [collapseGo, hl c (List.mem_cons_self c cs), if_neg (by decide)]
      exact congrArg _ (ih cs fun x hx => hl x (List.mem_cons_of_mem c hx))

theorem collapseRuns_no_p {p : Char → Bool} {r : Char} {l : List Char}
    (h : ∀ c ∈ l, p c = false) : collapseRuns p r l = l :=
  collapseGo_no_p l.length l h

theorem collapseRuns_append_free {p : Char → Bool} {r : Char} {a : List Char}
    (b : List Char) (ha : ∀ c ∈ a, p c = false) :
    collapseRuns p r (a ++ b) = a ++ collapseRuns p r b := by
  induction a with
  | nil => rfl
  | cons c cs ih =>
    show collapseGo p r (c :: (cs ++ b)).length (c :: (cs ++ b)) = _
    rw [List.length_cons, collapseGo, ha c (List.mem_cons_self c cs), if_neg (by decide)]
    simp only [List.cons_append]
    exact congrArg (c :: ·) (ih fun x hx => ha x (List.mem_cons_of_mem c hx))

theorem collapseRuns_mid_colon {a b : List Char}
    (ha : ∀ c ∈ a, c ≠ ':') (hb : ∀ c ∈ b, c ≠ ':') :
    collapseRuns (· = ':') ':' (a ++ ':' :: b) = a ++ ':' :: b := by
  rw [collapseRuns_append_free (':' :: b) (fun c hc => decide_eq_false (ha c hc))]
  congr 1
  show collapseGo _ ':' (':' :: b).length (':' :: b) = ':' :: b
  rw [List.length_cons, collapseGo, if_pos (by decide)]
  have hdrop : b.dropWhile (· = ':') = b :=
    dropWhile_head_false fun c hc => decide_eq_false (hb c (List.mem_of_mem_head? hc))
  rw [hdrop]
  exact congrArg _ (collapseGo_no_p b.length b fun c hc => decide_eq_false (hb c hc))

theorem splitOnC_no_sep {sep : Char} : ∀ l : List Char, sep ∉ l → splitOnC sep l = [l] := by
  intro l
  induction l with
  | nil => intro _; rfl
  | cons c cs ih =>
    intro hl
    rw [splitOnC, if_neg (by rintro rfl; exact hl (List.mem_cons_self _ _)),
      ih fun hm => hl (List.mem_cons_of_mem c hm)]

theorem splitOnC_append_free {sep : Char} {a : List Char} (b : List Char) (ha : sep ∉ a)
    {h : List Char} {t : List (List Char)} (hb : splitOnC sep b = h :: t) :
    splitOnC sep (a ++ b) = (a ++ h) :: t := by
  induction a with
  | nil => simpa using hb
  | cons c cs ih =>
    rw [List.cons_append, splitOnC,
      if_neg (by rintro rfl; exact ha (List.mem_cons_self _ _)),
      ih fun hm => ha (List.mem_cons_of_mem c hm)]
    rfl

theorem isPrefixOf_subset : ∀ p l : List Char, p.isPrefixOf l = true → ∀ c ∈ p, c ∈ l := by
  intro p
  induction p with
  | nil => intro l _ c hc; simp at hc
  | cons a as ih =>
    intro l hpre c hc
    cases l with
    | nil => simp [List.isPrefixOf] at hpre
    | cons b bs =>
      rw [show List.isPrefixOf (a :: as) (b :: bs) = (a == b && List.isPrefixOf as bs)
          from rfl, Bool.and_eq_true] at hpre
      rcases List.mem_cons.mp hc with h | h
      · subst h
        rw [show c = b from beq_iff_eq.mp hpre.1]
        exact List.mem_cons_self _ _
      · exact List.mem_cons_of_mem b (ih bs hpre.2 c h)

theorem isSubL_subset : ∀ l pat : List Char, isSubL pat l = true → ∀ c ∈ pat, c ∈ l := by
  intro l
  induction l with
  | nil =>
    intro pat h c hc
    rw [isSubL] at h
    rw [List.isEmpty_iff.mp h] at hc
    simp at hc
  | cons x xs ih =>
    intro pat h c hc
    rw [isSubL, Bool.or_eq_true] at h
    rcases h with h | h
    · exact isPrefixOf_subset pat (x :: xs) h c hc
    · exact List.mem_cons_of_mem x (ih pat h c hc)

theorem containsSub_eq_false {l pat : List Char} {c : Char} (hc : c ∈ pat) (hl : c ∉ l) :
    containsSub l pat = false := by
  cases h : isSubL pat l with
  | false => exact h
  | true => exact absurd (isSubL_subset l pat h c hc) hl

theorem lowerL_fixed {l : List Char} (h : ∀ c ∈ l, Char.toLower c = c) : lowerL l = l := by
  induction l with
  | nil => rfl
  | cons c cs ih =>
    simp only [lowerL, List.map_cons, h c (List.mem_cons_self c cs)]
    exact congrArg _ (ih fun x hx => h x (List.mem_cons_of_mem c hx))

theorem durChar_toLower {c : Char} (h : c ∈ durChars) : Char.toLower c = c := by
  fin_cases h <;> decide

theorem secs_tail_facts :
    ∀ c, (" seconds".data).head? = some c →
      Char.isDigit c = false ∧ c ≠ '.' ∧ c ≠ ',' :=
  head_all (show (" seconds".data).head? = some ' ' from rfl) (by decide)

theorem minutes_tail_facts :
    ∀ c, (" minutes".data).head? = some c →
      Char.isDigit c = false ∧ c ≠ '.' ∧ c ≠ ',' :=
  head_all (show (" minutes".data).head? = some ' ' from rfl) (by decide)

theorem minute_tail_facts :
    ∀ c, (" minute".data).head? = some c →
      Char.isDigit c = false ∧ c ≠ '.' ∧ c ≠ ',' :=
  head_all (show (" minute".data).head? = some ' ' from rfl) (by decide)

theorem colon_tail_facts {pad : List Char} :
    ∀ c, (':' :: pad).head? = some c →
      Char.isDigit c = false ∧ c ≠ '.' ∧ c ≠ ',' :=
  head_all (show (':' :: pad).head? = some ':' from rfl) (by decide)

theorem colon_head_not_ws {pad : List Char} :
    ∀ c, (':' :: pad).head? = some c → isWs c = false :=
  head_all (show (':' :: pad).head? = some ':' from rfl) (by decide)

theorem pyFloatCore_digits {l : List Char} (hne : l ≠ [])
    (hd : ∀ c ∈ l, c ∈ digitChars) :
    pyFloatCore l = some (.fin ⟨(digitsVal l : ℤ), 1⟩) := by
  have hA : ¬(l = "inf".data ∨ l = "infinity".data) := by
    rintro (rfl | rfl)
    · exact absurd (hd 'i' (by decide)) (by decide)
    · exact absurd (hd 'i' (by decide)) (by decide)
  have hB : ¬(l = "nan".data) := by
    rintro rfl
    exact absurd (hd 'n' (by decide)) (by decide)
  have hdig : ∀ c ∈ l, Char.isDigit c = true := fun c hc => digit_isDigit (hd c hc)
  have htake : l.takeWhile Char.isDigit = l := List.takeWhile_eq_self_iff.mpr hdig
  have hdrop : l.dropWhile Char.isDigit = [] := List.dropWhile_eq_nil_iff.mpr hdig
  simp only [pyFloatCore, if_neg hA, if_neg hB, htake, hdrop]
  rw [if_neg (fun hx => hne hx.1)]
  norm_num [digitsVal]

theorem pyFloat_digits {l : List Char} (hne : l ≠ [])
    (hd : ∀ c ∈ l, c ∈ digitChars) :
    pyFloat? l = some (.fin ⟨(digitsVal l : ℤ), 1⟩) := by
  have htrim : trimWs l = l :=
    trimWs_eq_self (fun c hc => digit_not_ws (hd c (List.mem_of_mem_head? hc)))
      (fun c hc => digit_not_ws (hd c (List.mem_of_mem_getLast? hc)))
  simp only [pyFloat?, htrim]
  cases l with
  | nil => exact absurd rfl hne
  | cons c cs =>
    have hcd := hd c (List.mem_cons_self c cs)
    split
    · rename_i heq
      injection heq with h1 _
      exact absurd h1 (by fin_cases hcd <;> decide)
    · rename_i heq
      injection heq with h1 _
      exact absurd h1 (by fin_cases hcd <;> decide)
    · exact pyFloatCore_digits (by simp) hd

theorem readDec_digits {ds r : List Char} (hne : ds ≠ [])
    (hd : ∀ c ∈ ds, c ∈ digitChars)
    (hr : ∀ c, r.head? = some c → c.isDigit = false ∧ c ≠ '.' ∧ c ≠ ',') :
    readDec (ds ++ r) = some (⟨(digitsVal ds : ℤ), 1⟩, r) := by
  obtain ⟨htake, hdrop⟩ :=
    span_append Char.isDigit r (fun c hc => digit_isDigit (hd c hc))
      (fun c hc => (hr c hc).1)
  simp only [readDec, htake, hdrop]
  rw [if_neg hne]
  cases r with
  | nil => rfl
  | cons c cs =>
    obtain ⟨-, h2, h3⟩ := hr c rfl
    split
    · rename_i heq
      injection heq with h1 _
      exact absurd h1 h2
    · rename_i heq
      injection heq with h1 _
      exact absurd h1 h3
    · rfl

theorem fullTimeMatch_secs {ds : List Char} (hne : ds ≠ [])
    (hd : ∀ c ∈ ds, c ∈ digitChars) :
    fullTimeMatch (ds ++ " seconds".data) = none := by
  obtain ⟨htake, hdrop⟩ := span_append Char.isDigit (" seconds".data)
    (fun c hc => digit_isDigit (hd c hc)) (fun c hc => (secs_tail_facts c hc).1)
  simp only [fullTimeMatch, htake, hdrop]
  rw [if_neg hne]
  rfl

theorem fullTimeMatch_mins {ds r : List Char} (hne : ds ≠ [])
    (hd : ∀ c ∈ ds, c ∈ digitChars)
    (hr : r = " minutes".data ∨ r = " minute".data) :
    fullTimeMatch (ds ++ r) = none := by
  rcases hr with rfl | rfl
  · obtain ⟨htake, hdrop⟩ := span_append Char.isDigit (" minutes".data)
      (fun c hc => digit_isDigit (hd c hc)) (fun c hc => (minutes_tail_facts c hc).1)
    simp only [fullTimeMatch, htake, hdrop]
    rw [if_neg hne]
    rfl
  · obtain ⟨htake, hdrop⟩ := span_append Char.isDigit (" minute".data)
      (fun c hc => digit_isDigit (hd c hc)) (fun c hc => (minute_tail_facts c hc).1)
    simp only [fullTimeMatch, htake, hdrop]
    rw [if_neg hne]
    rfl

theorem fullTimeMatch_colon {ds pad : List Char} (hne : ds ≠ [])
    (hd : ∀ c ∈ ds, c ∈ digitChars) :
    fullTimeMatch (ds ++ ':' :: pad) = none := by
  obtain ⟨htake, hdrop⟩ := span_append Char.isDigit (':' :: pad)
    (fun c hc => digit_isDigit (hd c hc)) (fun c hc => (colon_tail_facts c hc).1)
  have hdw : (':' :: pad).dropWhile isWs = ':' :: pad :=
    dropWhile_head_false colon_head_not_ws
  have hpre : List.isPrefixOf "minute".data (':' :: pad) = false := by
    simp [List.isPrefixOf]
  have hlit : litP "minute".data (':' :: pad) = none := by
    rw [litP, hpre]
    exact if_neg (by decide)
  simp only [fullTimeMatch, htake, hdrop, hdw, hlit]
  rw [if_neg hne]

theorem commaTimeMatch_tail {ds r : List Char} (hne : ds ≠ [])
    (hd : ∀ c ∈ ds, c ∈ digitChars)
    (hr : ∀ c, r.head? = some c → c.isDigit = false ∧ c ≠ ',') :
    commaTimeMatch (ds ++ r) = none := by
  obtain ⟨htake, hdrop⟩ := span_append Char.isDigit r
    (fun c hc => digit_isDigit (hd c hc)) (fun c hc => (hr c hc).1)
  simp only [commaTimeMatch, htake, hdrop]
  rw [if_neg hne]
  cases r with
  | nil => rfl
  | cons c cs =>
    obtain ⟨-, h2⟩ := hr c rfl
    split
    · rename_i heq
      injection heq with h1 _
      exact absurd h1 h2
    · rfl

theorem shorthandMatch_secs {ds : List Char} (hne : ds ≠ [])
    (hd : ∀ c ∈ ds, c ∈ digitChars) :
    shorthandMatch (ds ++ " seconds".data) = none := by
  obtain ⟨htake, hdrop⟩ := span_append Char.isDigit (" seconds".data)
    (fun c hc => digit_isDigit (hd c hc)) (fun c hc => (secs_tail_facts c hc).1)
  simp only [shorthandMatch, htake, hdrop]
  rw [if_neg hne]
  rfl

theorem shorthandMatch_mins {ds r : List Char} (hne : ds ≠ [])
    (hd : ∀ c ∈ ds, c ∈ digitChars)
    (hr : r = " minutes".data ∨ r = " minute".data) :
    shorthandMatch (ds ++ r) = none := by
  rcases hr with rfl | rfl
  · obtain ⟨htake, hdrop⟩ := span_append Char.isDigit (" minutes".data)
      (fun c hc => digit_isDigit (hd c hc)) (fun c hc => (minutes_tail_facts c hc).1)
    simp only [shorthandMatch, htake, hdrop]
    rw [if_neg hne]
    rfl
  · obtain ⟨htake, hdrop⟩ := span_append Char.isDigit (" minute".data)
      (fun c hc => digit_isDigit (hd c hc)) (fun c hc => (minute_tail_facts c hc).1)
    simp only [shorthandMatch, htake, hdrop]
    rw [if_neg hne]
    rfl

theorem shorthandMatch_colon {ds pad : List Char} (hne : ds ≠ [])
    (hd : ∀ c ∈ ds, c ∈ digitChars) :
    shorthandMatch (ds ++ ':' :: pad) = none := by
  obtain ⟨htake, hdrop⟩ := span_append Char.isDigit (':' :: pad)
    (fun c hc => digit_isDigit (hd c hc)) (fun c hc => (colon_tail_facts c hc).1)
  have hdw : (':' :: pad).dropWhile isWs = ':' :: pad :=
    dropWhile_head_false colon_head_not_ws
  simp only [shorthandMatch, htake, hdrop, hdw]
  rw [if_neg hne]
  split
  · rename_i heq
    injection heq with h1 _
    exact absurd h1 (by decide)
  · rename_i heq
    injection heq with h1 _
    exact absurd h1 (by decide)
  · rfl

theorem minsOnlyMatch_secs {ds : List Char} (hne : ds ≠ [])
    (hd : ∀ c ∈ ds, c ∈ digitChars) :
    minsOnlyMatch (ds ++ " seconds".data) = none := by
  simp only [minsOnlyMatch, readDec_digits hne hd secs_tail_facts]
  rfl

theorem minsOnlyMatch_mins {ds r : List Char} (hne : ds ≠ [])
    (hd : ∀ c ∈ ds, c ∈ digitChars)
    (hr : r = " minutes".data ∨ r = " minute".data) :
    minsOnlyMatch (ds ++ r) = some (.fin ⟨(digitsVal ds : ℤ) * 60, 1⟩) := by
  rcases hr with rfl | rfl
  · simp only [minsOnlyMatch, readDec_digits hne hd minutes_tail_facts]
    rfl
  · simp only [minsOnlyMatch, readDec_digits hne hd minute_tail_facts]
    rfl

theorem minsOnlyMatch_colon {ds pad : List Char} (hne : ds ≠ [])
    (hd : ∀ c ∈ ds, c ∈ digitChars) :
    minsOnlyMatch (ds ++ ':' :: pad) = none := by
  have hdw : (':' :: pad).dropWhile isWs = ':' :: pad :=
    dropWhile_head_false colon_head_not_ws
  simp only [minsOnlyMatch, readDec_digits hne hd colon_tail_facts, hdw]
  rw [if_neg (by
    rintro (h | h | h | h | h | h) <;> (injection h with h1 h2; exact absurd h1 (by decide)))]

theorem secsOnlyMatch_secs {ds : List Char} (hne : ds ≠ [])
    (hd : ∀ c ∈ ds, c ∈ digitChars) :
    secsOnlyMatch (ds ++ " seconds".data) = some (.fin ⟨(digitsVal ds : ℤ), 1⟩) := by
  simp only [secsOnlyMatch, readDec_digits hne hd secs_tail_facts]
  rfl

theorem secsOnlyMatch_colon {ds pad : List Char} (hne : ds ≠ [])
    (hd : ∀ c ∈ ds, c ∈ digitChars) :
    secsOnlyMatch (ds ++ ':' :: pad) = none := by
  have hdw : (':' :: pad).dropWhile isWs = ':' :: pad :=
    dropWhile_head_false colon_head_not_ws
  simp only [secsOnlyMatch, readDec_digits hne hd colon_tail_facts, hdw]
  rw [if_neg (by
    rintro (h | h | h | h | h | h | h) <;> (injection h with h1 h2; exact absurd h1 (by decide)))]

theorem head_ws_digit {ds : List Char} (r : List Char) (hne : ds ≠ [])
    (hd : ∀ c ∈ ds, c ∈ digitChars) :
    ∀ c, (ds ++ r).head? = some c → isWs c = false := by
  intro c hc
  rw [List.head?_append_of_ne_nil ds hne] at hc
  exact digit_not_ws (hd c (List.mem_of_mem_head? hc))

theorem last_concrete_not_ws {ds r : List Char} {x : Char} (hx : r.getLast? = some x)
    (hxw : isWs x = false) : ∀ c, (ds ++ r).getLast? = some c → isWs c = false := by
  intro c hc
  rw [List.getLast?_append_of_ne_nil ds (by rintro rfl; simp at hx), hx] at hc
  injection hc with h
  exact h ▸ hxw

theorem parseDurCore_clean {l : List Char} (hall : ∀ c ∈ l, c ∈ durChars)
    (h1 : ∀ c, l.head? = some c → isWs c = false)
    (h2 : ∀ c, l.getLast? = some c → isWs c = false) :
    lowerL (trimWs l) = l ∧
    ¬(containsSub l "door".data = true ∨ containsSub l "diab".data = true) := by
  constructor
  · rw [trimWs_eq_self h1 h2]
    exact lowerL_fixed fun c hc => durChar_toLower (hall c hc)
  · have hr : containsSub l "door".data = false :=
      containsSub_eq_false (show 'r' ∈ "door".data by decide)
        (fun hm => absurd (hall 'r' hm) (by decide))
    have ha : containsSub l "diab".data = false :=
      containsSub_eq_false (show 'a' ∈ "diab".data by decide)
        (fun hm => absurd (hall 'a' hm) (by decide))
    rw [hr, ha]
    simp

theorem parseDurCore_secs {ds : List Char} (hne : ds ≠ [])
    (hd : ∀ c ∈ ds, c ∈ digitChars) :
    parseDurCore (ds ++ " seconds".data) = some (.fin ⟨(digitsVal ds : ℤ), 1⟩) := by
  have hall : ∀ c ∈ ds ++ " seconds".data, c ∈ durChars := by
    intro c hc
    rcases List.mem_append.mp hc with h | h
    · exact List.mem_append_left _ (hd c h)
    · fin_cases h <;> decide
  obtain ⟨hlow, hdoor⟩ := parseDurCore_clean hall (head_ws_digit _ hne hd)
    (last_concrete_not_ws (show (" seconds".data).getLast? = some 's' by decide) (by decide))
  simp only [parseDurCore, hlow]
  rw [if_neg hdoor, fullTimeMatch_secs hne hd,
    commaTimeMatch_tail hne hd
      (fun c hc => ⟨(secs_tail_facts c hc).1, (secs_tail_facts c hc).2.2⟩),
    shorthandMatch_secs hne hd, minsOnlyMatch_secs hne hd, secsOnlyMatch_secs hne hd]

theorem parseDurCore_mins {ds r : List Char} (hne : ds ≠ [])
    (hd : ∀ c ∈ ds, c ∈ digitChars)
    (hr : r = " minutes".data ∨ r = " minute".data) :
    parseDurCore (ds ++ r) = some (.fin ⟨(digitsVal ds : ℤ) * 60, 1⟩) := by
  have hall : ∀ c ∈ ds ++ r, c ∈ durChars := by
    intro c hc
    rcases List.mem_append.mp hc with h | h
    · exact List.mem_append_left _ (hd c h)
    · rcases hr with rfl | rfl
      · fin_cases h <;> decide
      · fin_cases h <;> decide
  have hlast : ∀ c, (ds ++ r).getLast? = some c → isWs c = false := by
    rcases hr with rfl | rfl
    · exact last_concrete_not_ws (show (" minutes".data).getLast? = some 's' by decide)
        (by decide)
    · exact last_concrete_not_ws (show (" minute".data).getLast? = some 'e' by decide)
        (by decide)
  obtain ⟨hlow, hdoor⟩ := parseDurCore_clean hall (head_ws_digit r hne hd) hlast
  have hcomma : commaTimeMatch (ds ++ r) = none := by
    rcases hr with rfl | rfl
    · exact commaTimeMatch_tail hne hd
        (fun c hc => ⟨(minutes_tail_facts c hc).1, (minutes_tail_facts c hc).2.2⟩)
    · exact commaTimeMatch_tail hne hd
        (fun c hc => ⟨(minute_tail_facts c hc).1, (minute_tail_facts c hc).2.2⟩)
  simp only [parseDurCore, hlow]
  rw [if_neg hdoor, fullTimeMatch_mins hne hd hr, hcomma, shorthandMatch_mins hne hd hr,
    minsOnlyMatch_mins hne hd hr]

theorem parseDurCore_colon {ds pad : List Char} (hne : ds ≠ [])
    (hd : ∀ c ∈ ds, c ∈ digitChars) (hpne : pad ≠ [])
    (hpd : ∀ c ∈ pad, c ∈ digitChars) :
    parseDurCore (ds ++ ':' :: pad) =
      some (.fin ⟨(digitsVal ds : ℤ) * 60 + (digitsVal pad : ℤ), 1⟩) := by
  have hall : ∀ c ∈ ds ++ ':' :: pad, c ∈ durChars := by
    intro c hc
    rcases List.mem_append.mp hc with h | h
    · exact List.mem_append_left _ (hd c h)
    · rcases List.mem_cons.mp h with h | h
      · subst h; decide
      · exact List.mem_append_left _ (hpd c h)
  have hlast : ∀ c, (ds ++ ':' :: pad).getLast? = some c → isWs c = false := by
    intro c hc
    rw [List.getLast?_append_of_ne_nil ds (by simp)] at hc
    rw [show (':' :: pad : List Char) = [':'] ++ pad from rfl,
      List.getLast?_append_of_ne_nil [':'] hpne] at hc
    exact digit_not_ws (hpd c (List.mem_of_mem_getLast? hc))
  obtain ⟨hlow, hdoor⟩ := parseDurCore_clean hall (head_ws_digit _ hne hd) hlast
  have hnm : ∀ x : Char, x ∉ digitChars → x ≠ ':' → x ∉ ds ++ ':' :: pad := by
    intro x hx1 hx2 hm
    rcases List.mem_append.mp hm with h | h
    · exact hx1 (hd x h)
    · rcases List.mem_cons.mp h with h | h
      · exact hx2 h
      · exact hx1 (hpd x h)
  have hocc : ∀ (pat rep : List Char) (x : Char), pat.head? = some x →
      x ∉ digitChars → x ≠ ':' →
      replaceL pat rep (ds ++ ':' :: pad) = ds ++ ':' :: pad :=
    fun pat rep x hx hx1 hx2 => replaceL_no_occ hx (hnm x hx1 hx2)
  have htws : trimWs (ds ++ ':' :: pad) = ds ++ ':' :: pad :=
    trimWs_eq_self (head_ws_digit _ hne hd) hlast
  have hnws : ∀ c ∈ ds ++ ':' :: pad, isWs c = false := by
    intro c hc
    rcases List.mem_append.mp hc with h | h
    · exact digit_not_ws (hd c h)
    · rcases List.mem_cons.mp h with h | h
      · subst h; decide
      · exact digit_not_ws (hpd c h)
  have hcw : collapseRuns isWs ' ' (ds ++ ':' :: pad) = ds ++ ':' :: pad :=
    collapseRuns_no_p hnws
  have hcc : collapseRuns (· = ':') ':' (ds ++ ':' :: pad) = ds ++ ':' :: pad :=
    collapseRuns_mid_colon (fun c hc => digit_ne_colon (hd c hc))
      (fun c hc => digit_ne_colon (hpd c hc))
  have htc : trimChar ':' (ds ++ ':' :: pad) = ds ++ ':' :: pad := by
    refine trimChar_eq_self ?_ ?_
    · intro c hc
      rw [List.head?_append_of_ne_nil ds hne] at hc
      exact digit_ne_colon (hd c (List.mem_of_mem_head? hc))
    · intro c hc
      rw [List.getLast?_append_of_ne_nil ds (by simp)] at hc
      rw [show (':' :: pad : List Char) = [':'] ++ pad from rfl,
        List.getLast?_append_of_ne_nil [':'] hpne] at hc
      exact digit_ne_colon (hpd c (List.mem_of_mem_getLast? hc))
  have hnorm : normalizeTail (ds ++ ':' :: pad) = ds ++ ':' :: pad := by
    simp only [normalizeTail]
    rw [hocc [','] ['.'] ',' rfl (by decide) (by decide),
      hocc "seconds".data [] 's' rfl (by decide) (by decide),
      hocc "second".data [] 's' rfl (by decide) (by decide),
      hocc "secondes".data [] 's' rfl (by decide) (by decide),
      hocc "seconde".data [] 's' rfl (by decide) (by decide),
      hocc "minutes".data [':'] 'm' rfl (by decide) (by decide),
      hocc "minute".data [':'] 'm' rfl (by decide) (by decide),
      hocc "mins".data [':'] 'm' rfl (by decide) (by decide),
      hocc "min".data [':'] 'm' rfl (by decide) (by decide),
      hocc "sec".data [] 's' rfl (by decide) (by decide),
      hocc "secs".data [] 's' rfl (by decide) (by decide),
      hocc "and".data [] 'a' rfl (by decide) (by decide),
      hocc "et".data [] 'e' rfl (by decide) (by decide),
      htws,
      hocc ['\''] [':'] '\'' rfl (by decide) (by decide),
      hocc ['\"'] [] '\"' rfl (by decide) (by decide),
      hcw, htws, hcc, htc]
  have hsp : splitOnC ':' (':' :: pad) = [[], pad] := by
    rw [splitOnC, if_pos rfl,
      splitOnC_no_sep pad (fun hm => absurd (hpd ':' hm) (by decide))]
  have hsplit : splitOnC ':' (ds ++ ':' :: pad) = (ds ++ []) :: [pad] :=
    splitOnC_append_free (':' :: pad) (fun hm => absurd (hd ':' hm) (by decide)) hsp
  have htds : trimWs ds = ds := trimWs_eq_self
    (fun c hc => digit_not_ws (hd c (List.mem_of_mem_head? hc)))
    (fun c hc => digit_not_ws (hd c (List.mem_of_mem_getLast? hc)))
  have htpad : trimWs pad = pad := trimWs_eq_self
    (fun c hc => digit_not_ws (hpd c (List.mem_of_mem_head? hc)))
    (fun c hc => digit_not_ws (hpd c (List.mem_of_mem_getLast? hc)))
  simp only [parseDurCore, hlow]
  rw [if_neg hdoor, fullTimeMatch_colon hne hd,
    commaTimeMatch_tail hne hd
      (fun c hc => ⟨(colon_tail_facts c hc).1, (colon_tail_facts c hc).2.2⟩),
    shorthandMatch_colon hne hd, minsOnlyMatch_colon hne hd, secsOnlyMatch_colon hne hd,
    hnorm]
  simp only [parseColonOrNumber]
  rw [if_pos (by simp), hsplit, List.append_nil]
  simp only [List.map_cons, List.map_nil, htds, htpad]
  simp only [List.filter_cons, List.filter_nil, decide_eq_true_eq]
  rw [if_pos hne, if_pos hpne]
  simp [pyFloat_digits hne hd, pyFloat_digits hpne hpd, PyF.padd, PyF.pmul, fI,
    Q0.ofInt, Q0.qmul, Q0.qadd]

/-- C8: parser round-trip on canonical forms.  For every non-negative exact
duration `d` in seconds, `format_duration` renders the finite float `d` to a
string, `parse_duration` accepts that string with a numeric (finite) result,
and the re-parsed value differs from `d` by at most 1 second (the formatter
truncates fractional seconds; all three output shapes re-parse to the
truncated whole-second value). -/
theorem C8_round_trip (d : ℚ) (h0 : 0 ≤ d) :
    ∃ s v, format_duration (.fin (Q0.ofQ d)) = some s ∧
      parse_duration s = some (.fin v) ∧ |d - v.toQ| ≤ 1 := by
  have hden := Q0.den_ofQ_pos d
  have htoQ : (Q0.ofQ d).toQ = d := Q0.toQ_ofQ d
  by_cases hlt : d < 60
  · have hqlt : Q0.qlt (Q0.ofQ d) (Q0.ofInt 60) = true := by
      rw [Q0.qlt_iff hden (Q0.den_ofInt_pos 60), htoQ, Q0.toQ_ofInt]
      exact_mod_cast hlt
    have htr : Q0.qtrunc (Q0.ofQ d) = ⌊d⌋ := by
      rw [Q0.qtrunc_eq_floor hden (by rw [htoQ]; exact h0), htoQ]
    have hfl0 : (0:ℤ) ≤ ⌊d⌋ := Int.floor_nonneg.mpr h0
    have hfmt : fmtFin (Q0.ofQ d) = natToChars ⌊d⌋.toNat ++ " seconds".data := by
      rw [fmtFin, if_pos hqlt, htr, intToChars, if_neg (by omega)]
    refine ⟨String.mk (natToChars ⌊d⌋.toNat ++ " seconds".data), ⟨(⌊d⌋.toNat : ℤ), 1⟩,
      by simp only [format_duration, hfmt], ?_, ?_⟩
    · show parseDurCore (natToChars ⌊d⌋.toNat ++ " seconds".data) =
        some (.fin ⟨(⌊d⌋.toNat : ℤ), 1⟩)
      rw [parseDurCore_secs (natToChars_ne_nil _) (fun c hc => natToChars_mem hc),
        digitsVal_natToChars]
    · have hv : Q0.toQ ⟨(⌊d⌋.toNat : ℤ), 1⟩ = (⌊d⌋ : ℚ) := by
        rw [Q0.toQ]
        push_cast [Int.toNat_of_nonneg hfl0]
        ring
      rw [hv, abs_le]
      constructor <;> linarith [Int.lt_floor_add_one d, Int.floor_le d]
  · have hge : (60:ℚ) ≤ d := not_lt.mp hlt
    have hcond : ¬(Q0.qlt (Q0.ofQ d) (Q0.ofInt 60) = true) := by
      rw [Q0.qlt_iff hden (Q0.den_ofInt_pos 60), htoQ, Q0.toQ_ofInt]
      push_cast
      linarith
    have h60 : (Q0.ofInt 60).num ≠ 0 := by decide
    have hdivden : 0 < (Q0.qdiv (Q0.ofQ d) (Q0.ofInt 60)).den := Q0.den_qdiv hden h60
    have hm : Q0.qfloor (Q0.qdiv (Q0.ofQ d) (Q0.ofInt 60)) = ⌊d / 60⌋ := by
      rw [Q0.qfloor_eq hdivden, Q0.toQ_qdiv, htoQ, Q0.toQ_ofInt]
      norm_num
    have hm1 : 1 ≤ ⌊d / 60⌋ := by
      rw [Int.le_floor, le_div_iff₀ (by norm_num : (0:ℚ) < 60)]
      push_cast
      linarith
    have hm0 : (0:ℤ) ≤ ⌊d / 60⌋ := by omega
    have h60m_le : 60 * (⌊d / 60⌋ : ℚ) ≤ d := by
      have hfl := Int.floor_le (d / 60)
      have hd60 : d = 60 * (d / 60) := by ring
      linarith
    have hlt60 : d < 60 * (⌊d / 60⌋ : ℚ) + 60 := by
      have hfl := Int.lt_floor_add_one (d / 60)
      have hd60 : d = 60 * (d / 60) := by ring
      linarith
    have hmulden : 0 < (Q0.qmul (Q0.ofInt 60) (Q0.ofInt ⌊d / 60⌋)).den :=
      Q0.den_qmul (Q0.den_ofInt_pos 60) (Q0.den_ofInt_pos _)
    have hsubden :
        0 < (Q0.qsub (Q0.ofQ d) (Q0.qmul (Q0.ofInt 60) (Q0.ofInt ⌊d / 60⌋))).den :=
      Q0.den_qsub hden hmulden
    have hsubtoQ : (Q0.qsub (Q0.ofQ d) (Q0.qmul (Q0.ofInt 60) (Q0.ofInt ⌊d / 60⌋))).toQ
        = d - 60 * (⌊d / 60⌋ : ℚ) := by
      rw [Q0.toQ_qsub hden hmulden, Q0.toQ_qmul, Q0.toQ_ofInt, Q0.toQ_ofInt, htoQ]
      norm_num
    have hsub0 :
        0 ≤ (Q0.qsub (Q0.ofQ d) (Q0.qmul (Q0.ofInt 60) (Q0.ofInt ⌊d / 60⌋))).toQ := by
      rw [hsubtoQ]
      linarith
    have hsecs : Q0.qtrunc (Q0.qsub (Q0.ofQ d) (Q0.qmul (Q0.ofInt 60) (Q0.ofInt ⌊d / 60⌋)))
        = ⌊d⌋ - 60 * ⌊d / 60⌋ := by
      rw [Q0.qtrunc_eq_floor hsubden hsub0, hsubtoQ]
      have hcast : d - 60 * (⌊d / 60⌋ : ℚ) = d - ((60 * ⌊d / 60⌋ : ℤ) : ℚ) := by
        push_cast
        ring
      rw [hcast, Int.floor_sub_int]
    have hs0 : (0:ℤ) ≤ ⌊d⌋ - 60 * ⌊d / 60⌋ := by
      have h1 : (60 * ⌊d / 60⌋ : ℤ) ≤ ⌊d⌋ := by
        rw [Int.le_floor]
        push_cast
        linarith
      omega
    by_cases hsz : ⌊d⌋ - 60 * ⌊d / 60⌋ = 0
    · have hfmt : fmtFin (Q0.ofQ d) = natToChars ⌊d / 60⌋.toNat ++
          (if ⌊d / 60⌋ ≠ 1 then " minutes".data else " minute".data) := by
        simp only [fmtFin]
        rw [if_neg hcond, hm, hsecs, if_pos hsz, intToChars, if_neg (by omega)]
      have hrdisj :
          ((if ⌊d / 60⌋ ≠ 1 then " minutes".data else " minute".data) = " minutes".data) ∨
          ((if ⌊d / 60⌋ ≠ 1 then " minutes".data else " minute".data) = " minute".data) := by
        by_cases h1 : ⌊d / 60⌋ ≠ 1
        · exact Or.inl (if_pos h1)
        · exact Or.inr (if_neg h1)
      refine ⟨String.mk (natToChars ⌊d / 60⌋.toNat ++
          (if ⌊d / 60⌋ ≠ 1 then " minutes".data else " minute".data)),
        ⟨(⌊d / 60⌋.toNat : ℤ) * 60, 1⟩,
        by simp only [format_duration, hfmt], ?_, ?_⟩
      · show parseDurCore (natToChars ⌊d / 60⌋.toNat ++
          (if ⌊d / 60⌋ ≠ 1 then " minutes".data else " minute".data)) =
            some (.fin ⟨(⌊d / 60⌋.toNat : ℤ) * 60, 1⟩)
        rw [parseDurCore_mins (natToChars_ne_nil _) (fun c hc => natToChars_mem hc) hrdisj,
          digitsVal_natToChars]
      · have hv : Q0.toQ ⟨(⌊d / 60⌋.toNat : ℤ) * 60, 1⟩ = 60 * (⌊d / 60⌋ : ℚ) := by
          rw [Q0.toQ]
          push_cast [Int.toNat_of_nonneg hm0]
          ring
        have hz : (60 * ⌊d / 60⌋ : ℤ) = ⌊d⌋ := by omega
        have hQ : 60 * (⌊d / 60⌋ : ℚ) = (⌊d⌋ : ℚ) := by exact_mod_cast hz
        rw [hv, abs_le]
        constructor <;> linarith [Int.lt_floor_add_one d, Int.floor_le d, hQ]
    · have hfmt : fmtFin (Q0.ofQ d) = natToChars ⌊d / 60⌋.toNat ++ ':' ::
          pad2 (⌊d⌋ - 60 * ⌊d / 60⌋).toNat := by
        simp only [fmtFin]
        rw [if_neg hcond, hm, hsecs, if_neg hsz, intToChars, if_neg (by omega)]
      refine ⟨String.mk (natToChars ⌊d / 60⌋.toNat ++ ':' ::
          pad2 (⌊d⌋ - 60 * ⌊d / 60⌋).toNat),
        ⟨(⌊d / 60⌋.toNat : ℤ) * 60 + ((⌊d⌋ - 60 * ⌊d / 60⌋).toNat : ℤ), 1⟩,
        by simp only [format_duration, hfmt], ?_, ?_⟩
      · show parseDurCore (natToChars ⌊d / 60⌋.toNat ++ ':' ::
          pad2 (⌊d⌋ - 60 * ⌊d / 60⌋).toNat) =
            some (.fin ⟨(⌊d / 60⌋.toNat : ℤ) * 60 + ((⌊d⌋ - 60 * ⌊d / 60⌋).toNat : ℤ), 1⟩)
        rw [parseDurCore_colon (natToChars_ne_nil _) (fun c hc => natToChars_mem hc)
            (pad2_ne_nil _) (fun c hc => pad2_mem hc),
          digitsVal_natToChars, digitsVal_pad2]
      · have hv : Q0.toQ ⟨(⌊d / 60⌋.toNat : ℤ) * 60 + ((⌊d⌋ - 60 * ⌊d / 60⌋).toNat : ℤ), 1⟩
            = (⌊d⌋ : ℚ) := by
          rw [Q0.toQ]
          push_cast [Int.toNat_of_nonneg hm0, Int.toNat_of_nonneg hs0]
          ring
        rw [hv, abs_le]
        constructor <;> linarith [Int.lt_floor_add_one d, Int.floor_le d]

/-- Witness for C8 at d = 165 seconds (formatted "2:45", re-parsed to 165). -/
theorem C8_round_trip_witness :
    (0:ℚ) ≤ 165 ∧
    ∃ s v, format_duration (.fin (Q0.ofQ 165)) = some s ∧
      parse_duration s = some (.fin v) ∧ |(165:ℚ) - v.toQ| ≤ 1 :=
  ⟨by norm_num, C8_round_trip 165 (by norm_num)⟩

end PBA
